/-
Verification of the Obsidian Decision Engine core against its specification.

The development shallowly embeds the deterministic calculation engine:
`core/debt/debtSimulator` (src/unnamed/part_003), `core/debt/payoffStrategies`,
`core/affordability/affordCalculator` (src/unnamed/part_004) and
`core/affordability/affordRules`, over exact rational arithmetic.  JavaScript
numbers are modelled as `ℚ`; the `decimal.js`-backed helpers `toDisplayDollars`
(round to cents, half away from zero) and `Math.round(x*100)/100` (half towards
positive infinity) are modelled by `round2` and `jsRound2`.  JavaScript `Map`s
are modelled by association lists whose observable behaviour is `mapGetD`
(`map.get(k) ?? d`); `Map.set` is shadowing prepend.  The stable JavaScript
`Array.prototype.sort` is modelled by a stable insertion sort.
-/
import Mathlib

section ObsidianDecisionEngine

attribute [local semireducible] Rat.add Rat.mul Rat.inv Rat.sub Rat.ofScientific

set_option maxRecDepth 4000

-- ==========================================================================
-- Numeric and container primitives
-- ==========================================================================

/-- Rounding to two decimal places, half away from zero: the behaviour of
`decimal.js` `toDecimalPlaces(2)` under the configured `ROUND_HALF_UP` mode
(`utils/money.ts`, used by `toDisplayDollars` and `round`). -/
def round2 (x : ℚ) : ℚ :=
  if 0 ≤ x then ((x * 100 + 1/2).floor : ℚ) / 100
  else -((((-x) * 100 + 1/2).floor : ℚ) / 100)

/-- Rounding to two decimal places, half towards positive infinity: the
behaviour of the JavaScript idiom `Math.round(x * 100) / 100`. -/
def jsRound2 (x : ℚ) : ℚ :=
  ((x * 100 + 1/2).floor : ℚ) / 100

/-- Lookup in an association list with a default: models `map.get(k) ?? d`. -/
def mapGetD {α : Type} : List (String × α) → String → α → α
  | [], _, dflt => dflt
  | (k', v) :: rest, k, dflt => if k' = k then v else mapGetD rest k dflt

/-- Updating a key: models `map.set(k, v)`.  Shadowing prepend — `mapGetD`
afterwards observes the new value, exactly like a JavaScript `Map`. -/
def mapSet {α : Type} (m : List (String × α)) (k : String) (v : α) :
    List (String × α) :=
  (k, v) :: m

/-- Insert `x` into a list after every element `y` with `le y x`. -/
def insertLe {α : Type} (le : α → α → Bool) (x : α) : List α → List α
  | [] => [x]
  | y :: ys => if le y x then y :: insertLe le x ys else x :: y :: ys

/-- Stable sort by a total boolean preorder `le`, where `le a b` means the
comparator returned `cmp(a,b) ≤ 0`.  Elements are inserted in input order,
each landing after all its ties, which reproduces the stable behaviour of
`Array.prototype.sort`. -/
def stableSortBy {α : Type} (le : α → α → Bool) (l : List α) : List α :=
  l.foldl (fun acc x => insertLe le x acc) []

-- ==========================================================================
-- Data model (models/types.ts, core/debt/debtTypes.ts)
-- ==========================================================================

/-- Debt categories (`DebtTypeSchema` in `models/types.ts`). -/
inductive DebtType where
  | credit_card
  | personal_loan
  | auto_loan
  | student_loan
  | mortgage
  | medical_debt
  | payday_loan
  | buy_now_pay_later
  | other
deriving DecidableEq

/-- String form of a debt type, for the `name` fallback in
`initializeDebtState`. -/
def DebtType.str : DebtType → String
  | .credit_card => "credit_card"
  | .personal_loan => "personal_loan"
  | .auto_loan => "auto_loan"
  | .student_loan => "student_loan"
  | .mortgage => "mortgage"
  | .medical_debt => "medical_debt"
  | .payday_loan => "payday_loan"
  | .buy_now_pay_later => "buy_now_pay_later"
  | .other => "other"

/-- A raw debt account (`DebtAccountSchema`).  Fields irrelevant to the core
computations (description, open date, …) are omitted. -/
structure DebtAccount where
  id : Option String
  name : Option String
  type : DebtType
  balance : ℚ
  apr : ℚ
  minimum_payment : Option ℚ
  credit_limit : Option ℚ
deriving DecidableEq

/-- Payoff strategy tags (`DebtStrategySchema`). -/
inductive DebtStrategy where
  | avalanche
  | snowball
  | hybrid
  | minimum_only
deriving DecidableEq

/-- Working state of one debt during simulation (`DebtState`). -/
structure DebtState where
  id : String
  name : String
  type : DebtType
  balance : ℚ
  apr : ℚ
  minimumPayment : ℚ
  creditLimit : Option ℚ
  isPaidOff : Bool
deriving DecidableEq

/-- A recorded payment for one debt in one simulated month (`DebtPayment`). -/
structure DebtPayment where
  debtId : String
  debtName : String
  paymentAmount : ℚ
  principalPaid : ℚ
  interestPaid : ℚ
  remainingBalance : ℚ
deriving DecidableEq

/-- State after one simulated month (`MonthlySimulationState`; the formatted
`date` string is presentation-only and omitted). -/
structure MonthlySimulationState where
  month : ℕ
  debts : List DebtState
  payments : List DebtPayment
  totalPayment : ℚ
  totalInterestPaid : ℚ
  totalPrincipalPaid : ℚ
  totalRemainingDebt : ℚ
  debtsPaidOffThisMonth : List String
  extraPaymentApplied : ℚ
deriving DecidableEq

/-- One entry of a strategy result's payoff order. -/
structure PayoffEntry where
  debtId : String
  debtName : String
  monthsToPayoff : ℕ
  interestPaid : ℚ
  originalBalance : ℚ
deriving DecidableEq

/-- Result of a full strategy simulation (`StrategySimulationResult`). -/
structure StrategySimulationResult where
  strategy : DebtStrategy
  totalMonths : ℕ
  totalInterestPaid : ℚ
  totalAmountPaid : ℚ
  monthlyPaymentRequired : ℚ
  schedule : List MonthlySimulationState
  payoffOrder : List PayoffEntry
deriving DecidableEq

-- ==========================================================================
-- Configuration constants (config/thresholds.ts, environment defaults)
-- ==========================================================================

def DEFAULT_EXTRA_PAYMENT : ℚ := 100
def MAX_SIMULATION_MONTHS : ℕ := 360
def MIN_CREDIT_CARD_PAYMENT_PERCENT : ℚ := 2/100
def MIN_PAYMENT_FLOOR : ℚ := 25

-- ==========================================================================
-- Payoff strategies (core/debt/payoffStrategies.ts)
-- ==========================================================================

/-- A debt is active when it is not paid off and still carries a balance; all
four sorters filter with this predicate. -/
def activeB (d : DebtState) : Bool :=
  !d.isPaidOff && decide (0 < d.balance)

/-- `sortByAvalanche`: active debts, highest APR first, ties by lowest
balance.  `le a b` holds when the source comparator returns `≤ 0` on
`(a, b)`. -/
def sortByAvalanche (debts : List DebtState) : List DebtState :=
  stableSortBy
    (fun a b => if a.apr ≠ b.apr then decide (b.apr < a.apr)
                else decide (a.balance ≤ b.balance))
    (debts.filter activeB)

/-- `sortBySnowball`: active debts, lowest balance first, ties by highest
APR. -/
def sortBySnowball (debts : List DebtState) : List DebtState :=
  stableSortBy
    (fun a b => if a.balance ≠ b.balance then decide (a.balance < b.balance)
                else decide (b.apr ≤ a.apr))
    (debts.filter activeB)

/-- Hybrid score of one debt given the min/max APR and balance of the active
set: `0.6 × normalizedAPR + 0.4 × (1 − normalizedBalance)`, each dimension
normalized to 1 when degenerate. -/
def hybridScore (minAPR maxAPR minBalance maxBalance : ℚ) (d : DebtState) : ℚ :=
  let normalizedAPR := if maxAPR = minAPR then 1 else (d.apr - minAPR) / (maxAPR - minAPR)
  let normalizedBalance :=
    if maxBalance = minBalance then 1
    else 1 - (d.balance - minBalance) / (maxBalance - minBalance)
  (6/10) * normalizedAPR + (4/10) * normalizedBalance

/-- Fold computing the maximum of a projection over a list, seeded with the
head (models `Math.max(...xs.map(f))` on a non-empty list). -/
def foldMax (f : DebtState → ℚ) (x : DebtState) (l : List DebtState) : ℚ :=
  l.foldl (fun m d => max m (f d)) (f x)

/-- Fold computing the minimum of a projection over a list. -/
def foldMin (f : DebtState → ℚ) (x : DebtState) (l : List DebtState) : ℚ :=
  l.foldl (fun m d => min m (f d)) (f x)

/-- `sortByHybrid`: scores each active debt and sorts by score descending,
stable on ties. -/
def sortByHybrid (debts : List DebtState) : List DebtState :=
  match debts.filter activeB with
  | [] => []
  | x :: rest =>
    let maxAPR := foldMax DebtState.apr x rest
    let minAPR := foldMin DebtState.apr x rest
    let maxBalance := foldMax DebtState.balance x rest
    let minBalance := foldMin DebtState.balance x rest
    let score := hybridScore minAPR maxAPR minBalance maxBalance
    stableSortBy (fun a b => decide (score b ≤ score a)) (x :: rest)

/-- `sortByMinimumOnly`: active debts in original order. -/
def sortByMinimumOnly (debts : List DebtState) : List DebtState :=
  debts.filter activeB

/-- `getStrategySorter`. -/
def getStrategySorter (strategy : DebtStrategy) : List DebtState → List DebtState :=
  match strategy with
  | .avalanche => sortByAvalanche
  | .snowball => sortBySnowball
  | .hybrid => sortByHybrid
  | .minimum_only => sortByMinimumOnly

/-- Loop body of `allocateExtraPayments`: walk the priority order, give each
active debt `min(remaining, balance)`, stop once the extra is exhausted or a
debt is not fully covered. -/
def allocLoop : List DebtState → ℚ → List (String × ℚ) → List (String × ℚ)
  | [], _, acc => acc
  | d :: rest, remainingExtra, acc =>
    if remainingExtra ≤ 0 then acc
    else if d.isPaidOff = true ∨ d.balance ≤ 0 then allocLoop rest remainingExtra acc
    else if min remainingExtra d.balance < d.balance then
      mapSet acc d.id (min remainingExtra d.balance)
    else
      allocLoop rest (remainingExtra - min remainingExtra d.balance)
        (mapSet acc d.id (min remainingExtra d.balance))

/-- `allocateExtraPayments`: all debts are initialized with 0 extra, then the
available extra (user extra + freed minimums) is applied to `sortedDebts` in
priority order. -/
def allocateExtraPayments (debts sortedDebts : List DebtState)
    (extraPayment freedUpMinimums : ℚ) : List (String × ℚ) :=
  allocLoop sortedDebts (extraPayment + freedUpMinimums)
    (debts.foldl (fun m d => mapSet m d.id 0) [])

-- ==========================================================================
-- Debt simulator (core/debt/debtSimulator, src/unnamed/part_003)
-- ==========================================================================

/-- `calculateAmortizedPayment` of the debt simulator: zero for non-positive
principal; `principal / n` at rate 0 (unrounded, as in the source); otherwise
the standard amortization formula rounded to cents with `Math.round`. -/
def DebtSimulator.calculateAmortizedPayment (principal annualRate : ℚ)
    (termMonths : ℕ) : ℚ :=
  if principal ≤ 0 then 0
  else
    let monthlyRate := annualRate / 100 / 12
    if monthlyRate = 0 then principal / termMonths
    else
      jsRound2 ((principal * (monthlyRate * (1 + monthlyRate) ^ termMonths)) /
        ((1 + monthlyRate) ^ termMonths - 1))

/-- `calculateMinimumPayment` of the debt simulator (src/unnamed/part_003
lines 53–74).  Note the credit-card branch: the source passes the balance as a
third argument to `Math.max` (commented "Can't pay more than balance"), so the
result is `max(2% × balance, $25, balance)`. -/
def DebtSimulator.calculateMinimumPayment (debt : DebtAccount) : ℚ :=
  match debt.type with
  | .credit_card =>
    max (max (debt.balance * MIN_CREDIT_CARD_PAYMENT_PERCENT) MIN_PAYMENT_FLOOR)
      debt.balance
  | .mortgage => DebtSimulator.calculateAmortizedPayment debt.balance debt.apr 360
  | .auto_loan => DebtSimulator.calculateAmortizedPayment debt.balance debt.apr 60
  | .personal_loan => DebtSimulator.calculateAmortizedPayment debt.balance debt.apr 60
  | .student_loan => DebtSimulator.calculateAmortizedPayment debt.balance debt.apr 120
  | _ => max (debt.balance * (3/100)) MIN_PAYMENT_FLOOR

/-- `initializeDebtState`. -/
def initializeDebtState (debt : DebtAccount) (index : ℕ) : DebtState :=
  { id := debt.id.getD ("debt_" ++ toString index)
    name := debt.name.getD (debt.type.str ++ "_" ++ toString index)
    type := debt.type
    balance := debt.balance
    apr := debt.apr
    minimumPayment := debt.minimum_payment.getD (DebtSimulator.calculateMinimumPayment debt)
    creditLimit := debt.credit_limit
    isPaidOff := decide (debt.balance ≤ 0) }

/-- Accumulator of the per-debt loop inside `simulateMonth`. -/
structure MonthAccum where
  payments : List DebtPayment
  updatedDebts : List DebtState
  totalPaymentThisMonth : ℚ
  totalInterestThisMonth : ℚ
  totalPrincipalThisMonth : ℚ
  debtsPaidOff : List String
deriving DecidableEq

/-- Per-debt computation of `simulateMonth` for an active debt: interest
accrual, payment capping, split into interest and principal, new balance and
payoff detection.  Returns the recorded payment, the updated state, and the
payoff flag. -/
def monthDebtCalc (alloc : List (String × ℚ)) (d : DebtState) :
    DebtPayment × DebtState × Bool :=
  let monthlyRate := d.apr / 100 / 12
  let interestCharge := round2 (d.balance * monthlyRate)
  let extraForThisDebt := mapGetD alloc d.id 0
  let desiredPayment := d.minimumPayment + extraForThisDebt
  let balanceWithInterest := round2 (d.balance + interestCharge)
  let actualPayment := min desiredPayment balanceWithInterest
  let interestPaid := min interestCharge actualPayment
  let principalPaid := actualPayment - interestPaid
  let newBalance := max 0 (round2 (balanceWithInterest - actualPayment))
  let paidOff := decide (newBalance ≤ 1/100)
  ({ debtId := d.id
     debtName := d.name
     paymentAmount := actualPayment
     principalPaid := principalPaid
     interestPaid := interestPaid
     remainingBalance := if paidOff then 0 else newBalance },
   { d with
     balance := if paidOff then 0 else newBalance
     isPaidOff := paidOff },
   paidOff)

/-- The per-debt loop of `simulateMonth` (source lines 137–194): paid-off or
zero-balance debts are carried over with balance 0 and no payment; active
debts are processed by `monthDebtCalc`. -/
def processDebts (alloc : List (String × ℚ)) : List DebtState → MonthAccum
  | [] => ⟨[], [], 0, 0, 0, []⟩
  | d :: rest =>
    let acc := processDebts alloc rest
    if activeB d then
      let r := monthDebtCalc alloc d
      { payments := r.1 :: acc.payments
        updatedDebts := r.2.1 :: acc.updatedDebts
        totalPaymentThisMonth := r.1.paymentAmount + acc.totalPaymentThisMonth
        totalInterestThisMonth := r.1.interestPaid + acc.totalInterestThisMonth
        totalPrincipalThisMonth := r.1.principalPaid + acc.totalPrincipalThisMonth
        debtsPaidOff := (if r.2.2 then [d.id] else []) ++ acc.debtsPaidOff }
    else
      { acc with
        updatedDebts := { d with isPaidOff := true, balance := 0 } :: acc.updatedDebts }

/-- `simulateMonth`: sort active debts by the strategy, allocate the extra
payment, process each debt, and assemble the month record. -/
def simulateMonth (debts : List DebtState) (extraPayment : ℚ)
    (strategy : DebtStrategy) (month : ℕ)
    (totalInterestSoFar freedUpMinimums : ℚ) : MonthlySimulationState :=
  let sortedDebts := getStrategySorter strategy debts
  let extraAllocations := allocateExtraPayments debts sortedDebts extraPayment freedUpMinimums
  let acc := processDebts extraAllocations debts
  { month := month
    debts := acc.updatedDebts
    payments := acc.payments
    totalPayment := jsRound2 acc.totalPaymentThisMonth
    totalInterestPaid := jsRound2 (totalInterestSoFar + acc.totalInterestThisMonth)
    totalPrincipalPaid := jsRound2 acc.totalPrincipalThisMonth
    totalRemainingDebt := jsRound2 ((acc.updatedDebts.map DebtState.balance).sum)
    debtsPaidOffThisMonth := acc.debtsPaidOff
    extraPaymentApplied := extraPayment + freedUpMinimums }

/-- Loop state of the `simulateStrategy` driver. -/
structure SimAcc where
  states : List DebtState
  schedule : List MonthlySimulationState
  payoffOrder : List PayoffEntry
  interestMap : List (String × ℚ)
  totalInterestPaid : ℚ
  totalAmountPaid : ℚ
  freedUpMinimums : ℚ
  month : ℕ
deriving DecidableEq

/-- Does any debt remain active? (`debtStates.some(...)`). -/
def hasRemainingDebt (states : List DebtState) : Bool :=
  states.any (fun d => !d.isPaidOff && decide (0 < d.balance))

/-- One iteration of the driver loop: simulate the next month, then fold the
month's payments into the per-debt interest map and record payoffs (freed
minimums become available from the following month). -/
def simStep (strategy : DebtStrategy) (extraMonthlyPayment : ℚ)
    (originalBalances : List (String × (ℚ × String))) (acc : SimAcc) : SimAcc :=
  let month := acc.month + 1
  let monthState := simulateMonth acc.states extraMonthlyPayment strategy month
    acc.totalInterestPaid acc.freedUpMinimums
  let interestMap := monthState.payments.foldl
    (fun m p => mapSet m p.debtId (mapGetD m p.debtId 0 + p.interestPaid))
    acc.interestMap
  let afterPayoffs := monthState.debtsPaidOffThisMonth.foldl
    (fun (fp : ℚ × List PayoffEntry) debtId =>
      match monthState.debts.find? (fun d => d.id == debtId) with
      | some debt =>
        let original := mapGetD originalBalances debtId (0, debtId)
        (fp.1 + debt.minimumPayment,
         fp.2 ++ [{ debtId := debtId
                    debtName := original.2
                    monthsToPayoff := month
                    interestPaid := mapGetD interestMap debtId 0
                    originalBalance := original.1 }])
      | none => fp)
    (acc.freedUpMinimums, acc.payoffOrder)
  { states := monthState.debts
    schedule := acc.schedule ++ [monthState]
    payoffOrder := afterPayoffs.2
    interestMap := interestMap
    totalInterestPaid := monthState.totalInterestPaid
    totalAmountPaid := acc.totalAmountPaid + monthState.totalPayment
    freedUpMinimums := afterPayoffs.1
    month := month }

/-- The driver loop: up to `fuel` more months, stopping as soon as no active
debt remains (`while (month < maxMonths) { if (!hasRemainingDebt) break; … }`). -/
def simLoop (strategy : DebtStrategy) (extraMonthlyPayment : ℚ)
    (originalBalances : List (String × (ℚ × String))) :
    ℕ → SimAcc → SimAcc
  | 0, acc => acc
  | fuel + 1, acc =>
    if hasRemainingDebt acc.states then
      simLoop strategy extraMonthlyPayment originalBalances fuel
        (simStep strategy extraMonthlyPayment originalBalances acc)
    else acc

/-- Original-balance map of `simulateStrategy` (a JS `Map` built from the
initial debt states; later duplicates win, matching the `Map` constructor). -/
def originalBalancesOf (debtStates : List DebtState) : List (String × (ℚ × String)) :=
  debtStates.foldl (fun m d => mapSet m d.id (d.balance, d.name)) []

/-- Initial interest-tracking map: every debt id starts at 0. -/
def initialInterestMap (debtStates : List DebtState) : List (String × ℚ) :=
  debtStates.foldl (fun m d => mapSet m d.id 0) []

/-- Full driver state after running `simulateStrategy`'s loop. -/
def simRun (debts : List DebtAccount) (strategy : DebtStrategy)
    (extraMonthlyPayment : ℚ) (maxMonths : ℕ) : SimAcc :=
  let debtStates := debts.mapIdx (fun i d => initializeDebtState d i)
  simLoop strategy extraMonthlyPayment (originalBalancesOf debtStates) maxMonths
    { states := debtStates
      schedule := []
      payoffOrder := []
      interestMap := initialInterestMap debtStates
      totalInterestPaid := 0
      totalAmountPaid := 0
      freedUpMinimums := 0
      month := 0 }

/-- `simulateStrategy`: run the driver, then append a sentinel payoff entry
(`maxMonths + 999`) for every debt still active at the cap. -/
def simulateStrategy (debts : List DebtAccount) (strategy : DebtStrategy)
    (extraMonthlyPayment : ℚ) (maxMonths : ℕ := MAX_SIMULATION_MONTHS) :
    StrategySimulationResult :=
  let debtStates := debts.mapIdx (fun i d => initializeDebtState d i)
  let originalBalances := originalBalancesOf debtStates
  let acc := simRun debts strategy extraMonthlyPayment maxMonths
  let totalMinimumPayment := (debtStates.map DebtState.minimumPayment).sum
  { strategy := strategy
    totalMonths := acc.month
    totalInterestPaid := jsRound2 acc.totalInterestPaid
    totalAmountPaid := jsRound2 acc.totalAmountPaid
    monthlyPaymentRequired := totalMinimumPayment + extraMonthlyPayment
    schedule := acc.schedule
    payoffOrder := acc.payoffOrder ++
      (acc.states.filter (fun d => !d.isPaidOff && decide (0 < d.balance))).map
        (fun d =>
          { debtId := d.id
            debtName := d.name
            monthsToPayoff := maxMonths + 999
            interestPaid := mapGetD acc.interestMap d.id 0
            originalBalance := (mapGetD originalBalances d.id (0, d.id)).1 }) }

/-- Comparison output (`StrategyComparison`); the recommendation reason and
the derived savings figures are presentation-only and omitted. -/
structure StrategyComparison where
  strategies : List StrategySimulationResult
  recommendedStrategy : DebtStrategy
deriving DecidableEq

/-- `compareStrategies` (src/unnamed/part_003 lines 336–403), reduced to the
recommendation logic: run all four strategies (`minimum_only` with zero
extra), then recommend by the ordered policy on the snowball/avalanche
results. -/
def compareStrategies (debts : List DebtAccount) (extraMonthlyPayment : ℚ)
    (maxMonths : ℕ := MAX_SIMULATION_MONTHS) : StrategyComparison :=
  let results := [
    simulateStrategy debts .avalanche extraMonthlyPayment maxMonths,
    simulateStrategy debts .snowball extraMonthlyPayment maxMonths,
    simulateStrategy debts .hybrid extraMonthlyPayment maxMonths,
    simulateStrategy debts .minimum_only 0 maxMonths]
  let avalancheResult := results.find? (fun r => r.strategy == DebtStrategy.avalanche)
  let snowballResult := results.find? (fun r => r.strategy == DebtStrategy.snowball)
  let hasQuickSnowballWins :=
    match snowballResult, avalancheResult with
    | some sn, some _ =>
      match sn.payoffOrder with
      | [] => false
      | p :: _ => decide (p.monthsToPayoff ≤ 3)
    | _, _ => false
  let interestDifferential :=
    match avalancheResult, snowballResult with
    | some av, some sn => sn.totalInterestPaid - av.totalInterestPaid
    | _, _ => (0 : ℚ)
  let recommendedStrategy :=
    if (500 : ℚ) < interestDifferential ∨ hasQuickSnowballWins = false then
      DebtStrategy.avalanche
    else if hasQuickSnowballWins = true ∧ interestDifferential < 200 then
      DebtStrategy.snowball
    else DebtStrategy.hybrid
  { strategies := results, recommendedStrategy := recommendedStrategy }

-- ==========================================================================
-- Affordability data model (models/*, core/affordability/affordTypes.ts)
-- ==========================================================================

/-- Decision outcomes (`DecisionOutcomeSchema`). -/
inductive DecisionOutcome where
  | YES
  | NO
  | CONDITIONAL
  | DEFER
  | INSUFFICIENT_DATA
deriving DecidableEq

/-- Risk levels (`RiskLevelSchema`). -/
inductive RiskLevel where
  | LOW
  | MODERATE
  | HIGH
  | CRITICAL
deriving DecidableEq

/-- Payment methods (`PaymentMethodSchema`). -/
inductive PaymentMethod where
  | cash
  | debit
  | credit_card
  | buy_now_pay_later
  | financing
  | savings
  | mixed
deriving DecidableEq

/-- Financing terms of a purchase request. -/
structure FinancingTerms where
  apr : ℚ
  term_months : ℕ
  down_payment : Option ℚ
deriving DecidableEq

/-- A purchase request (`PurchaseRequestSchema`); category/description fields
do not enter the calculations and are omitted. -/
structure PurchaseRequest where
  amount : ℚ
  payment_method : PaymentMethod
  financing_terms : Option FinancingTerms
deriving DecidableEq

/-- A user financial profile (`UserFinancialProfileSchema`), restricted to the
fields the affordability core reads. -/
structure UserFinancialProfile where
  monthly_income : ℚ
  monthly_fixed_expenses : ℚ
  cash_balance : ℚ
  savings_balance : Option ℚ
  emergency_fund : Option ℚ
  debts : List DebtAccount
deriving DecidableEq

/-- Financial snapshot (`AffordabilityMetrics`).  The source fields
`debtToIncomeRatio` and `purchaseToIncomeRatio` are shortened to
`debtToIncome` / `purchaseToIncome` here. -/
structure AffordabilityMetrics where
  monthlyIncome : ℚ
  monthlyExpenses : ℚ
  monthlyDebtPayments : ℚ
  monthlyCashflow : ℚ
  liquidAssets : ℚ
  totalDebt : ℚ
  debtToIncome : ℚ
  creditUtilization : ℚ
  emergencyFundMonths : ℚ
  savingsRate : ℚ
deriving DecidableEq

/-- Projected effect of a purchase (`PurchaseImpact`). -/
structure PurchaseImpact where
  projectedCashBalance : ℚ
  monthsOfBufferRemaining : ℚ
  newMonthlyCashflow : Option ℚ
  newDebtToIncome : Option ℚ
  creditUtilizationChange : Option ℚ
  bufferConsumptionPercent : ℚ
  purchaseToIncome : ℚ
deriving DecidableEq

-- ==========================================================================
-- Affordability thresholds (config/thresholds.ts, environment defaults)
-- ==========================================================================

def EMERGENCY_FUND_MINIMUM_MONTHS : ℚ := 3
def DTI_GOOD : ℚ := 25/100
def DTI_ACCEPTABLE : ℚ := 35/100
def CREDIT_UTILIZATION_GOOD : ℚ := 30/100
def MAX_BUFFER_CONSUMPTION : ℚ := 25/100
def SMALL_PURCHASE_THRESHOLD : ℚ := 5/100
def LARGE_PURCHASE_THRESHOLD : ℚ := 25/100
def MAJOR_PURCHASE_THRESHOLD : ℚ := 50/100
def MINIMUM_POST_PURCHASE_BUFFER_MONTHS : ℚ := 1

-- ==========================================================================
-- Affordability calculator (core/affordability/affordCalculator,
-- src/unnamed/part_004)
-- ==========================================================================

/-- `money.divide` of `utils/money.ts`: raises on a zero divisor, modelled as
`none`.  Used in `Checked` variants to express that the guarded call sites of
the core never reach the raising branch. -/
def moneyDivide (amount divisor : ℚ) : Option ℚ :=
  if divisor = 0 then none else some (amount / divisor)

/-- `calculateMinimumPayment` of the affordability calculator
(src/unnamed/part_004 lines 48–89): a supplied minimum payment is used
verbatim, otherwise the estimate depends on the debt type. -/
def AffordCalculator.calculateMinimumPayment (debt : DebtAccount) : ℚ :=
  match debt.minimum_payment with
  | some m => m
  | none =>
    match debt.type with
    | .credit_card =>
      max (round2 (debt.balance * MIN_CREDIT_CARD_PAYMENT_PERCENT)) MIN_PAYMENT_FLOOR
    | .personal_loan => AffordCalculator.installmentEstimate debt 60
    | .auto_loan => AffordCalculator.installmentEstimate debt 60
    | .student_loan => AffordCalculator.installmentEstimate debt 120
    | .mortgage => AffordCalculator.installmentEstimate debt 360
    | _ => max (round2 (debt.balance * (3/100))) MIN_PAYMENT_FLOOR
where
  /-- Shared body of the installment-loan and mortgage branches: balance over
  the term at rate 0 (via `money.divide`, the term constant being nonzero),
  otherwise the amortization formula rounded with `Math.round`. -/
  AffordCalculator.installmentEstimate (debt : DebtAccount) (termMonths : ℕ) : ℚ :=
    let monthlyRate := debt.apr / 100 / 12
    if monthlyRate = 0 then round2 (debt.balance / termMonths)
    else
      jsRound2 ((debt.balance * (monthlyRate * (1 + monthlyRate) ^ termMonths)) /
        ((1 + monthlyRate) ^ termMonths - 1))

/-- The credit cards counted for utilization: cards with a defined, positive
limit. -/
def utilizationCards (debts : List DebtAccount) : List DebtAccount :=
  debts.filter (fun d =>
    d.type == DebtType.credit_card &&
      (match d.credit_limit with
       | some l => decide (0 < l)
       | none => false))

/-- `calculateCreditUtilization`: 0 with no qualifying cards or a zero total
limit, otherwise total balance over total limit, rounded to cents. -/
def calculateCreditUtilization (debts : List DebtAccount) : ℚ :=
  let creditCards := utilizationCards debts
  if creditCards = [] then 0
  else
    let totalBalance := (creditCards.map DebtAccount.balance).sum
    let totalLimit := (creditCards.map (fun d => d.credit_limit.getD 0)).sum
    if totalLimit = 0 then 0
    else round2 (totalBalance / totalLimit)

/-- `calculateCreditUtilization` with the raising `money.divide` kept
explicit: the shape of the source, where the division is guarded by
`isZero(totalLimit)`. -/
def calculateCreditUtilizationChecked (debts : List DebtAccount) : Option ℚ :=
  let creditCards := utilizationCards debts
  if creditCards = [] then some 0
  else
    let totalBalance := (creditCards.map DebtAccount.balance).sum
    let totalLimit := (creditCards.map (fun d => d.credit_limit.getD 0)).sum
    if totalLimit = 0 then some 0
    else (moneyDivide totalBalance totalLimit).map round2

/-- `calculateMetrics` (src/unnamed/part_004 lines 112–164). -/
def calculateMetrics (profile : UserFinancialProfile) : AffordabilityMetrics :=
  let monthlyIncome := profile.monthly_income
  let monthlyExpenses := profile.monthly_fixed_expenses
  let monthlyDebtPayments := profile.debts.foldl
    (fun total debt => total + AffordCalculator.calculateMinimumPayment debt) 0
  let monthlyCashflow := round2 (monthlyIncome - monthlyExpenses - monthlyDebtPayments)
  let liquidAssets := round2 (profile.cash_balance +
    (profile.savings_balance.getD 0) + (profile.emergency_fund.getD 0))
  let totalDebt := round2 ((profile.debts.map DebtAccount.balance).sum)
  let annualDebtPayments := monthlyDebtPayments * 12
  let annualIncome := monthlyIncome * 12
  let debtToIncome := if 0 < annualIncome then annualDebtPayments / annualIncome else 0
  let creditUtilization := calculateCreditUtilization profile.debts
  let monthlyEssentialExpenses := monthlyExpenses + monthlyDebtPayments
  let emergencyFundMonths :=
    if 0 < monthlyEssentialExpenses then liquidAssets / monthlyEssentialExpenses else 0
  let savingsRate := if 0 < monthlyIncome then max 0 (monthlyCashflow / monthlyIncome) else 0
  { monthlyIncome := monthlyIncome
    monthlyExpenses := monthlyExpenses
    monthlyDebtPayments := monthlyDebtPayments
    monthlyCashflow := monthlyCashflow
    liquidAssets := liquidAssets
    totalDebt := totalDebt
    debtToIncome := debtToIncome
    creditUtilization := creditUtilization
    emergencyFundMonths := emergencyFundMonths
    savingsRate := savingsRate }

/-- The cards counted in the credit-card purchase branch: any card with a
defined limit (the source omits the positivity check here). -/
def impactCards (debts : List DebtAccount) : List DebtAccount :=
  debts.filter (fun d => d.type == DebtType.credit_card && d.credit_limit.isSome)

/-- Credit-utilization change of a credit-card purchase: `amount / Σ limits`,
rounded to cents, or `null` when the total limit is zero. -/
def creditCardUtilChange (purchaseAmount : ℚ) (debts : List DebtAccount) : Option ℚ :=
  let totalCreditLimit := ((impactCards debts).map (fun d => d.credit_limit.getD 0)).sum
  if totalCreditLimit = 0 then none
  else some (round2 (purchaseAmount / totalCreditLimit))

/-- The credit-utilization-change computation with the raising `money.divide`
kept explicit (the source guards the call with `!isZero(totalCreditLimit)`). -/
def creditCardUtilChangeChecked (purchaseAmount : ℚ) (debts : List DebtAccount) :
    Option (Option ℚ) :=
  let totalCreditLimit := ((impactCards debts).map (fun d => d.credit_limit.getD 0)).sum
  if totalCreditLimit = 0 then some none
  else (moneyDivide purchaseAmount totalCreditLimit).map (fun q => some (round2 q))

/-- `calculatePurchaseImpact` (src/unnamed/part_004 lines 173–289). -/
def calculatePurchaseImpact (metrics : AffordabilityMetrics)
    (purchase : PurchaseRequest) (profile : UserFinancialProfile) : PurchaseImpact :=
  let purchaseAmount := purchase.amount
  let base :=
    match purchase.payment_method with
    | .cash | .debit =>
      (round2 (metrics.liquidAssets - purchaseAmount), (none : Option ℚ), (none : Option ℚ),
       (none : Option ℚ))
    | .credit_card =>
      let newMinPayment := max (purchaseAmount * (2/100)) 25
      let newAnnualDebtPayments := (metrics.monthlyDebtPayments + newMinPayment) * 12
      let annualIncome := metrics.monthlyIncome * 12
      (metrics.liquidAssets,
       some (metrics.monthlyCashflow - newMinPayment),
       some (if 0 < annualIncome then newAnnualDebtPayments / annualIncome else 0),
       creditCardUtilChange purchaseAmount profile.debts)
    | .buy_now_pay_later =>
      (round2 (metrics.liquidAssets - purchaseAmount / 4),
       some (metrics.monthlyCashflow - purchaseAmount / 2), none, none)
    | .financing =>
      let projected := round2 (metrics.liquidAssets -
        ((purchase.financing_terms.map (fun (ft : FinancingTerms) => ft.down_payment.getD 0)).getD 0))
      match purchase.financing_terms with
      | some ft =>
        let financedAmount := purchaseAmount - ft.down_payment.getD 0
        let monthlyRate := ft.apr / 100 / 12
        let monthlyPayment :=
          if monthlyRate = 0 then financedAmount / ft.term_months
          else (financedAmount * (monthlyRate * (1 + monthlyRate) ^ ft.term_months)) /
            ((1 + monthlyRate) ^ ft.term_months - 1)
        let newAnnualPayments := (metrics.monthlyDebtPayments + monthlyPayment) * 12
        (projected,
         some (metrics.monthlyCashflow - monthlyPayment),
         some (if 0 < metrics.monthlyIncome * 12
               then newAnnualPayments / (metrics.monthlyIncome * 12) else 0),
         none)
      | none => (projected, none, none, none)
    | .savings =>
      (round2 (metrics.liquidAssets - purchaseAmount), none, none, none)
    | .mixed =>
      (round2 (metrics.liquidAssets - purchaseAmount / 2), none, none, none)
  let projectedCashBalance := base.1
  let monthlyEssentials := metrics.monthlyExpenses + metrics.monthlyDebtPayments
  let monthsOfBufferRemaining :=
    if 0 < monthlyEssentials then max 0 (projectedCashBalance / monthlyEssentials) else 0
  let bufferConsumptionPercent :=
    if 0 < metrics.liquidAssets
    then max 0 (1 - projectedCashBalance / metrics.liquidAssets) else 1
  let purchaseToIncome :=
    if 0 < metrics.monthlyIncome then purchaseAmount / metrics.monthlyIncome else 1
  { projectedCashBalance := projectedCashBalance
    monthsOfBufferRemaining := monthsOfBufferRemaining
    newMonthlyCashflow := base.2.1
    newDebtToIncome := base.2.2.1
    creditUtilizationChange := base.2.2.2
    bufferConsumptionPercent := bufferConsumptionPercent
    purchaseToIncome := purchaseToIncome }

-- ==========================================================================
-- Affordability rules (core/affordability/affordRules.ts)
-- ==========================================================================

/-- One rule outcome (`RuleResult`); reason codes and explanation strings are
presentation-only and omitted. -/
structure RuleResult where
  ruleId : String
  passed : Bool
  weight : ℚ
deriving DecidableEq

/-- Rule: buffer months remaining after the purchase must stay at or above
the minimum (1 month). -/
def sufficientBufferRule (_m : AffordabilityMetrics) (i : PurchaseImpact) : RuleResult :=
  { ruleId := "SUFFICIENT_BUFFER"
    passed := decide (MINIMUM_POST_PURCHASE_BUFFER_MONTHS ≤ i.monthsOfBufferRemaining)
    weight := 25/100 }

/-- Rule: post-purchase cashflow (or current cashflow when unaffected) must be
positive. -/
def positiveCashflowRule (m : AffordabilityMetrics) (i : PurchaseImpact) : RuleResult :=
  { ruleId := "POSITIVE_CASHFLOW"
    passed := decide (0 < i.newMonthlyCashflow.getD m.monthlyCashflow)
    weight := 20/100 }

/-- Rule: effective debt-to-income must stay at or below the acceptable
threshold (0.35). -/
def debtToIncomeRule (m : AffordabilityMetrics) (i : PurchaseImpact) : RuleResult :=
  { ruleId := "DEBT_TO_INCOME"
    passed := decide (i.newDebtToIncome.getD m.debtToIncome ≤ DTI_ACCEPTABLE)
    weight := 15/100 }

/-- Rule: when utilization changes, the new utilization must stay at or below
the good threshold (0.30); weight 0 when not applicable. -/
def creditUtilizationRule (m : AffordabilityMetrics) (i : PurchaseImpact) : RuleResult :=
  match i.creditUtilizationChange with
  | none => { ruleId := "CREDIT_UTILIZATION", passed := true, weight := 0 }
  | some change =>
    { ruleId := "CREDIT_UTILIZATION"
      passed := decide (m.creditUtilization + change ≤ CREDIT_UTILIZATION_GOOD)
      weight := 10/100 }

/-- Rule: the emergency fund must cover at least the minimum months (3). -/
def emergencyFundRule (m : AffordabilityMetrics) : RuleResult :=
  { ruleId := "EMERGENCY_FUND"
    passed := decide (EMERGENCY_FUND_MINIMUM_MONTHS ≤ m.emergencyFundMonths)
    weight := 15/100 }

/-- Rule: tiered purchase-size check on the purchase/income proportion. -/
def purchaseSizeRule (m : AffordabilityMetrics) (i : PurchaseImpact) : RuleResult :=
  let r := i.purchaseToIncome
  { ruleId := "PURCHASE_SIZE"
    passed :=
      if r ≤ SMALL_PURCHASE_THRESHOLD then true
      else if r ≤ LARGE_PURCHASE_THRESHOLD then true
      else if r ≤ MAJOR_PURCHASE_THRESHOLD then
        decide (EMERGENCY_FUND_MINIMUM_MONTHS ≤ m.emergencyFundMonths)
      else false
    weight := 10/100 }

/-- Rule: the purchase must not consume more than a quarter of the buffer. -/
def bufferConsumptionRule (_m : AffordabilityMetrics) (i : PurchaseImpact) : RuleResult :=
  { ruleId := "BUFFER_CONSUMPTION"
    passed := decide (i.bufferConsumptionPercent ≤ MAX_BUFFER_CONSUMPTION)
    weight := 5/100 }

/-- Rule: informational luxury-while-in-debt flag — always passes; weight 0
when the debt-to-income is in the good range. -/
def luxuryWhileInDebtRule (m : AffordabilityMetrics) : RuleResult :=
  if m.debtToIncome ≤ DTI_GOOD then
    { ruleId := "LUXURY_WHILE_IN_DEBT", passed := true, weight := 0 }
  else
    { ruleId := "LUXURY_WHILE_IN_DEBT", passed := true, weight := 5/100 }

/-- `ALL_RULES` applied to one metrics/impact pair, in source order. -/
def affordRulesList (m : AffordabilityMetrics) (i : PurchaseImpact) : List RuleResult :=
  [sufficientBufferRule m i,
   positiveCashflowRule m i,
   debtToIncomeRule m i,
   creditUtilizationRule m i,
   emergencyFundRule m,
   purchaseSizeRule m i,
   bufferConsumptionRule m i,
   luxuryWhileInDebtRule m]

/-- Aggregated rule evaluation (`RuleEvaluationResult`; reason codes and
pass/fail counts are presentation-only and omitted). -/
structure RuleEvaluationResult where
  rules : List RuleResult
  weightedScore : ℚ
  suggestedDecision : DecisionOutcome
  suggestedRiskLevel : RiskLevel
deriving DecidableEq

/-- `evaluateAffordabilityRules` (affordRules.ts lines 299–358): evaluate all
rules, drop zero-weight results, aggregate the weighted pass score, and map it
through the decision/risk thresholds. -/
def evaluateAffordabilityRules (m : AffordabilityMetrics) (i : PurchaseImpact)
    (_purchaseAmount : ℚ) : RuleEvaluationResult :=
  let results := affordRulesList m i
  let applicableRules := results.filter (fun r => decide (0 < r.weight))
  let totalWeight := applicableRules.foldl (fun s r => s + r.weight) (0 : ℚ)
  let weightedSum := applicableRules.foldl
    (fun s r => s + (if r.passed then r.weight else 0)) (0 : ℚ)
  let weightedScore := if 0 < totalWeight then weightedSum / totalWeight else 0
  let suggestedDecision :=
    if 85/100 ≤ weightedScore then DecisionOutcome.YES
    else if 60/100 ≤ weightedScore then DecisionOutcome.CONDITIONAL
    else if 40/100 ≤ weightedScore then DecisionOutcome.DEFER
    else DecisionOutcome.NO
  let suggestedRiskLevel :=
    if 85/100 ≤ weightedScore then RiskLevel.LOW
    else if 60/100 ≤ weightedScore then RiskLevel.MODERATE
    else if 40/100 ≤ weightedScore then RiskLevel.HIGH
    else RiskLevel.CRITICAL
  { rules := results
    weightedScore := weightedScore
    suggestedDecision := suggestedDecision
    suggestedRiskLevel := suggestedRiskLevel }

/-- Step 4 of `calculateAffordability` (src/unnamed/part_004 lines 395–408):
the suggested decision with the critical overrides applied in order. -/
def determineFinalDecision (impact : PurchaseImpact) (metrics : AffordabilityMetrics)
    (suggested : DecisionOutcome) : DecisionOutcome :=
  let d1 := if impact.projectedCashBalance < 0 then DecisionOutcome.NO else suggested
  let d2 := if impact.monthsOfBufferRemaining < 1/2 then DecisionOutcome.NO else d1
  if d2 = DecisionOutcome.YES ∧ metrics.emergencyFundMonths < 2 then
    DecisionOutcome.CONDITIONAL
  else d2

/-- Step 5 of `calculateAffordability` (lines 410–420): confidence from the
weighted score, reduced by 20% in the low-buffer edge case, clamped to
[0, 1]. -/
def determineConfidence (impact : PurchaseImpact) (weightedScore : ℚ)
    (finalDecision : DecisionOutcome) : ℚ :=
  let c := if impact.monthsOfBufferRemaining < 1 ∧ finalDecision ≠ DecisionOutcome.NO
           then weightedScore * (8/10) else weightedScore
  max 0 (min 1 c)

/-- Full calculation result (`AffordabilityCalculation`); recommendation and
alternative strings are presentation-only and omitted. -/
structure AffordabilityCalculation where
  metrics : AffordabilityMetrics
  impact : PurchaseImpact
  ruleEvaluation : RuleEvaluationResult
  decision : DecisionOutcome
  confidence : ℚ
  riskLevel : RiskLevel
deriving DecidableEq

/-- `calculateAffordability` (src/unnamed/part_004 lines 380–441). -/
def calculateAffordability (profile : UserFinancialProfile)
    (purchase : PurchaseRequest) : AffordabilityCalculation :=
  let metrics := calculateMetrics profile
  let impact := calculatePurchaseImpact metrics purchase profile
  let ruleEvaluation := evaluateAffordabilityRules metrics impact purchase.amount
  let finalDecision := determineFinalDecision impact metrics ruleEvaluation.suggestedDecision
  let confidence := determineConfidence impact ruleEvaluation.weightedScore finalDecision
  { metrics := metrics
    impact := impact
    ruleEvaluation := ruleEvaluation
    decision := finalDecision
    confidence := confidence
    riskLevel := ruleEvaluation.suggestedRiskLevel }

-- ==========================================================================
-- Reference definitions written from the specification's wording, for the
-- refinement-style claims.
-- ==========================================================================

/-- Amortized payment exactly as the specification words it: for monthly rate
`r = APR/100/12` and term `n`, `balance/n` when `r = 0`, else
`balance × r × (1+r)^n / ((1+r)^n − 1)` rounded to cents. -/
def amortizedPaymentRef (balance apr : ℚ) (termMonths : ℕ) : ℚ :=
  let r := apr / 100 / 12
  if r = 0 then balance / termMonths
  else jsRound2 (balance * r * (1 + r) ^ termMonths / ((1 + r) ^ termMonths - 1))

/-- Per-type minimum-payment estimate exactly as the specification words it:
a supplied minimum payment verbatim; otherwise credit_card →
`max(2% × balance, $25)`, mortgage → amortized over 360 months,
auto/personal → 60, student → 120, other → `max(3% × balance, $25)`. -/
def minimumPaymentRef (debt : DebtAccount) : ℚ :=
  match debt.minimum_payment with
  | some m => m
  | none =>
    match debt.type with
    | .credit_card => max (debt.balance * (2/100)) 25
    | .mortgage => amortizedPaymentRef debt.balance debt.apr 360
    | .auto_loan => amortizedPaymentRef debt.balance debt.apr 60
    | .personal_loan => amortizedPaymentRef debt.balance debt.apr 60
    | .student_loan => amortizedPaymentRef debt.balance debt.apr 120
    | _ => max (debt.balance * (3/100)) 25

/-- Extra-payment waterfall as the corrected reading of the allocation:
walk the priority order; each active debt receives `min(remaining, balance)`
and the remainder carries to the next debt, so surplus reaches a
lower-priority debt exactly when every higher-priority active debt is fully
covered. -/
def extraWaterfall : List DebtState → ℚ → String → ℚ
  | [], _, _ => 0
  | d :: rest, remaining, k =>
    if d.isPaidOff = true ∨ d.balance ≤ 0 then extraWaterfall rest remaining k
    else if d.id = k then min remaining d.balance
    else extraWaterfall rest (remaining - min remaining d.balance) k

/-- Recommendation policy exactly as the specification words it, as a function
of the snowball and avalanche simulation results. -/
def recommendationPolicyRef (snowball avalanche : StrategySimulationResult) :
    DebtStrategy :=
  let interestDifferential := snowball.totalInterestPaid - avalanche.totalInterestPaid
  let quickSnowballWins :=
    match snowball.payoffOrder with
    | [] => false
    | p :: _ => decide (p.monthsToPayoff ≤ 3)
  if (500 : ℚ) < interestDifferential ∨ quickSnowballWins = false then
    DebtStrategy.avalanche
  else if quickSnowballWins = true ∧ interestDifferential < 200 then
    DebtStrategy.snowball
  else DebtStrategy.hybrid

/-- Weighted score exactly as the claim words it:
`Σ(weight where passed) / Σ(weight of applicable rules)`, zero-weight rules
excluded. -/
def specWeightedScore (m : AffordabilityMetrics) (i : PurchaseImpact) : ℚ :=
  let applicable := (affordRulesList m i).filter (fun r => decide (0 < r.weight))
  ((applicable.map (fun r => if r.passed then r.weight else 0)).sum) /
    ((applicable.map RuleResult.weight).sum)

/-- Decision exactly as the claim words it: threshold mapping of the weighted
score (≥ 0.85 YES, ≥ 0.60 CONDITIONAL, ≥ 0.40 DEFER, else NO) followed by the
post-hoc overrides in order: negative projected cash forces NO; buffer months
below 0.5 forces NO; a YES with an emergency fund below 2 months is downgraded
to CONDITIONAL. -/
def specDecision (m : AffordabilityMetrics) (i : PurchaseImpact) : DecisionOutcome :=
  let s := specWeightedScore m i
  let base :=
    if 85/100 ≤ s then DecisionOutcome.YES
    else if 60/100 ≤ s then DecisionOutcome.CONDITIONAL
    else if 40/100 ≤ s then DecisionOutcome.DEFER
    else DecisionOutcome.NO
  let afterCash := if i.projectedCashBalance < 0 then DecisionOutcome.NO else base
  let afterBuffer := if i.monthsOfBufferRemaining < 1/2 then DecisionOutcome.NO else afterCash
  if afterBuffer = DecisionOutcome.YES ∧ m.emergencyFundMonths < 2 then
    DecisionOutcome.CONDITIONAL
  else afterBuffer

/-- Confidence exactly as the claim words it: the weighted score, multiplied
by 0.8 when the remaining buffer is below one month and the decision is not
NO, clamped to [0, 1]. -/
def specConfidence (m : AffordabilityMetrics) (i : PurchaseImpact) : ℚ :=
  let s := specWeightedScore m i
  let c := if i.monthsOfBufferRemaining < 1 ∧ specDecision m i ≠ DecisionOutcome.NO
           then s * (8/10) else s
  max 0 (min 1 c)

-- ==========================================================================
-- Default placeholder records for index-based statements
-- ==========================================================================

def ddefault : DebtState :=
  { id := "", name := "", type := .other, balance := 0, apr := 0,
    minimumPayment := 0, creditLimit := none, isPaidOff := false }

def mdefault : MonthlySimulationState :=
  { month := 0, debts := [], payments := [], totalPayment := 0,
    totalInterestPaid := 0, totalPrincipalPaid := 0, totalRemainingDebt := 0,
    debtsPaidOffThisMonth := [], extraPaymentApplied := 0 }

-- ==========================================================================
-- Concrete instances used by counterexamples and witnesses
-- ==========================================================================

/-- Two-debt instance refuting C4: d0 carries the higher APR but a minimum
payment close to its balance, so the avalanche target's payment is capped and
part of the budget evaporates, while snowball's allocation spillover retires
both debts in the first month. -/
def c4debt0 : DebtAccount :=
  ⟨some "d0", some "d0", .credit_card, 1721/50, 493/25, some (164/5), none⟩

def c4debt1 : DebtAccount :=
  ⟨some "d1", some "d1", .credit_card, 2089/100, 39/5, some (551/100), none⟩

/-- Two-debt priority order refuting C3's single-target reading: the top debt
has balance 100, the next 500. -/
def c3debtA : DebtState :=
  { id := "A", name := "A", type := .credit_card, balance := 100, apr := 20,
    minimumPayment := 10, creditLimit := none, isPaidOff := false }

def c3debtB : DebtState :=
  { id := "B", name := "B", type := .credit_card, balance := 500, apr := 5,
    minimumPayment := 10, creditLimit := none, isPaidOff := false }

/-- Failing input for C2: a credit card with a $1000 balance and no supplied
minimum payment. -/
def c2debt : DebtAccount := ⟨some "cc", some "cc", .credit_card, 1000, 20, none, some 5000⟩

/-- Profile for the C6 counterexample: $100 of liquid assets. -/
def c6profile : UserFinancialProfile := ⟨1000, 0, 100, none, none, []⟩

/-- Purchase for the C6 counterexample: $500 on a credit card — far above the
liquid assets, yet cash is not touched by this payment method. -/
def c6purchase : PurchaseRequest := ⟨500, .credit_card, none⟩

/-- Profile for the C7 counterexample: zero income, zero expenses, zero
assets, no debts — every guarded denominator is zero. -/
def c7profile : UserFinancialProfile := ⟨0, 0, 0, none, none, []⟩

def c7purchase : PurchaseRequest := ⟨10, .cash, none⟩

-- ==========================================================================
-- Claim C2 (code_bug)
-- ==========================================================================

/-- Claim C2: the spec says a credit card's estimated minimum payment is
`max(2% × balance, $25)` when none is supplied.  The debt simulator's
`calculateMinimumPayment` (src/unnamed/part_003) instead passes the balance as
a third `Math.max` argument — its own comment says "Can't pay more than
balance", i.e. a cap was intended — so for the $1000 credit card it returns
the entire balance $1000, where the spec's formula (and the parallel
implementation in the affordability calculator, src/unnamed/part_004) gives
$25.  The wrong estimate flows into `initializeDebtState`. -/
theorem calculateMinimumPayment_credit_card_bug :
    DebtSimulator.calculateMinimumPayment c2debt = 1000
    ∧ minimumPaymentRef c2debt = 25
    ∧ AffordCalculator.calculateMinimumPayment c2debt = 25
    ∧ (initializeDebtState c2debt 0).minimumPayment = 1000 := by
  decide

-- ==========================================================================
-- Claim C3 (corrected) — counterexample
-- ==========================================================================

/-- Claim C3 as stated is false: it says extra is given only to the single
top-priority debt, with no overflow to the next-priority debt in the same
month.  With priority order [A (balance 100), B (balance 500)] and $150 of
extra, `allocateExtraPayments` gives A its full $100 balance and spills the
remaining $50 to B in the same month. -/
theorem allocateExtraPayments_single_target_counterexample :
    mapGetD (allocateExtraPayments [c3debtA, c3debtB] [c3debtA, c3debtB] 150 0) "B" 0 = 50
    ∧ mapGetD (allocateExtraPayments [c3debtA, c3debtB] [c3debtA, c3debtB] 150 0) "B" 0 ≠ 0 := by
  decide

-- ==========================================================================
-- Claim C4 (corrected) — counterexample
-- ==========================================================================

/-- Claim C4 as stated is false: with the comparator's inputs (same extra
payment, month cap 360), the avalanche simulation can pay strictly more total
interest than the snowball simulation.  On `[c4debt0, c4debt1]` with $34.20
extra, avalanche pays $0.81 of interest over two months while snowball pays
$0.71, finishing in one month: avalanche's target payment is capped at
balance-with-interest (the surplus evaporates for the month), while
snowball's allocation spillover retires both debts at once. -/
theorem avalanche_snowball_interest_counterexample :
    (simulateStrategy [c4debt0, c4debt1] .snowball (171/5) 360).totalInterestPaid
      < (simulateStrategy [c4debt0, c4debt1] .avalanche (171/5) 360).totalInterestPaid := by
  decide

-- ==========================================================================
-- Claim C6 (corrected) — counterexample
-- ==========================================================================

/-- Claim C6 as stated is false: it asserts that any purchase whose amount
exceeds the liquid assets yields decision NO *and* a negative projected cash
balance.  For a credit-card purchase the projected cash balance is the
unchanged liquid assets ($100 here, not negative), so the stated conjunction
fails even though the $500 amount far exceeds the $100 of liquid assets. -/
theorem affordability_credit_card_over_liquid_counterexample :
    (calculateMetrics c6profile).liquidAssets < c6purchase.amount
    ∧ (calculateAffordability c6profile c6purchase).impact.projectedCashBalance = 100
    ∧ ¬((calculateAffordability c6profile c6purchase).decision = DecisionOutcome.NO
        ∧ (calculateAffordability c6profile c6purchase).impact.projectedCashBalance < 0) := by
  decide

-- ==========================================================================
-- Claim C7 (corrected) — counterexample
-- ==========================================================================

/-- Claim C7 as stated is false: it says every guarded zero-denominator
division yields 0.  With zero liquid assets the buffer-consumption guard
yields 1, and with zero income the purchase-to-income guard yields 1. -/
theorem zero_liquid_buffer_consumption_counterexample :
    (calculatePurchaseImpact (calculateMetrics c7profile) c7purchase c7profile).bufferConsumptionPercent = 1
    ∧ (calculatePurchaseImpact (calculateMetrics c7profile) c7purchase c7profile).bufferConsumptionPercent ≠ 0
    ∧ (calculatePurchaseImpact (calculateMetrics c7profile) c7purchase c7profile).purchaseToIncome = 1 := by
  decide

-- ==========================================================================
-- Structure of the per-debt month loop
-- ==========================================================================

theorem processDebts_payments (alloc : List (String × ℚ)) (l : List DebtState) :
    (processDebts alloc l).payments
      = (l.filter activeB).map (fun d => (monthDebtCalc alloc d).1) := by
  induction l with
  | nil => rfl
  | cons d rest ih =>
    cases hd : activeB d <;> simp [processDebts, List.filter_cons, hd, ih]

theorem processDebts_updated (alloc : List (String × ℚ)) (l : List DebtState) :
    (processDebts alloc l).updatedDebts
      = l.map (fun d =>
          if activeB d then (monthDebtCalc alloc d).2.1
          else { d with isPaidOff := true, balance := 0 }) := by
  induction l with
  | nil => rfl
  | cons d rest ih =>
    cases hd : activeB d <;> simp [processDebts, List.map_cons, hd, ih]

theorem monthDebtCalc_debtId (alloc : List (String × ℚ)) (d : DebtState) :
    (monthDebtCalc alloc d).1.debtId = d.id := rfl

theorem monthDebtCalc_balance_nonneg (alloc : List (String × ℚ)) (d : DebtState) :
    0 ≤ (monthDebtCalc alloc d).2.1.balance := by
  unfold monthDebtCalc
  dsimp only
  split
  · exact le_refl 0
  · exact le_max_left 0 _

theorem monthDebtCalc_paidOff_balance (alloc : List (String × ℚ)) (d : DebtState)
    (h : (monthDebtCalc alloc d).2.1.isPaidOff = true) :
    (monthDebtCalc alloc d).2.1.balance = 0 := by
  unfold monthDebtCalc at h ⊢
  dsimp only at h ⊢
  rw [if_pos h]

-- ==========================================================================
-- Claim C1 (confirmed)
-- ==========================================================================

/-- Claim C1: in one simulated month, every still-active debt (not paid off,
positive balance) is recorded with exactly the specified arithmetic —
interest = cents(balance × APR/100/12); desired = minimum + allocated extra;
actual = min(desired, balance + interest); interest-paid = min(interest,
actual); principal-paid = actual − interest-paid; new balance = max(0,
balance + interest − actual), all intermediate sums rounded to cents as the
source does via `toDisplayDollars` — and the debt is marked paid off exactly
when the new balance is ≤ $0.01 (in which case the stored balance is 0).
Inactive debts are carried with balance 0 and no payment record. -/
theorem simulateMonth_per_debt_equations (debts : List DebtState) (extraPayment : ℚ)
    (strategy : DebtStrategy) (month : ℕ) (totalInterestSoFar freedUpMinimums : ℚ) :
    ((simulateMonth debts extraPayment strategy month totalInterestSoFar
        freedUpMinimums).payments
      = (debts.filter activeB).map (fun d =>
          let monthlyRate := d.apr / 100 / 12
          let interestCharge := round2 (d.balance * monthlyRate)
          let extraForThisDebt := mapGetD (allocateExtraPayments debts
            (getStrategySorter strategy debts) extraPayment freedUpMinimums) d.id 0
          let desiredPayment := d.minimumPayment + extraForThisDebt
          let balanceWithInterest := round2 (d.balance + interestCharge)
          let actualPayment := min desiredPayment balanceWithInterest
          let interestPaid := min interestCharge actualPayment
          let principalPaid := actualPayment - interestPaid
          let newBalance := max 0 (round2 (balanceWithInterest - actualPayment))
          let paidOff := decide (newBalance ≤ 1/100)
          { debtId := d.id
            debtName := d.name
            paymentAmount := actualPayment
            principalPaid := principalPaid
            interestPaid := interestPaid
            remainingBalance := if paidOff then 0 else newBalance }))
    ∧ ((simulateMonth debts extraPayment strategy month totalInterestSoFar
        freedUpMinimums).debts
      = debts.map (fun d =>
          if activeB d then
            let monthlyRate := d.apr / 100 / 12
            let interestCharge := round2 (d.balance * monthlyRate)
            let extraForThisDebt := mapGetD (allocateExtraPayments debts
              (getStrategySorter strategy debts) extraPayment freedUpMinimums) d.id 0
            let desiredPayment := d.minimumPayment + extraForThisDebt
            let balanceWithInterest := round2 (d.balance + interestCharge)
            let actualPayment := min desiredPayment balanceWithInterest
            let newBalance := max 0 (round2 (balanceWithInterest - actualPayment))
            let paidOff := decide (newBalance ≤ 1/100)
            { d with
              balance := if paidOff then 0 else newBalance
              isPaidOff := paidOff }
          else { d with isPaidOff := true, balance := 0 })) :=
  ⟨processDebts_payments _ _, processDebts_updated _ _⟩

-- ==========================================================================
-- Claim C8 (confirmed)
-- ==========================================================================

/-- Claim C8: every debt state produced by `simulateMonth` has a non-negative
balance; a state marked paid off has balance exactly 0; a debt that enters
the month already paid off stays paid off with balance 0 and — since every
recorded payment belongs to a debt that was active at the start of the month
— receives no further `DebtPayment` entries. -/
theorem simulateMonth_state_invariants (debts : List DebtState) (extraPayment : ℚ)
    (strategy : DebtStrategy) (month : ℕ) (totalInterestSoFar freedUpMinimums : ℚ)
    (i : ℕ) (h : i < debts.length) :
    0 ≤ ((simulateMonth debts extraPayment strategy month totalInterestSoFar
        freedUpMinimums).debts.getD i ddefault).balance
    ∧ (((simulateMonth debts extraPayment strategy month totalInterestSoFar
        freedUpMinimums).debts.getD i ddefault).isPaidOff = true →
        ((simulateMonth debts extraPayment strategy month totalInterestSoFar
          freedUpMinimums).debts.getD i ddefault).balance = 0)
    ∧ ((debts.getD i ddefault).isPaidOff = true →
        ((simulateMonth debts extraPayment strategy month totalInterestSoFar
          freedUpMinimums).debts.getD i ddefault).isPaidOff = true
        ∧ ((simulateMonth debts extraPayment strategy month totalInterestSoFar
          freedUpMinimums).debts.getD i ddefault).balance = 0)
    ∧ (∀ p, p ∈ (simulateMonth debts extraPayment strategy month totalInterestSoFar
        freedUpMinimums).payments →
        ∃ d, d ∈ debts ∧ activeB d = true ∧ p.debtId = d.id) := by
  have hmap : (simulateMonth debts extraPayment strategy month totalInterestSoFar
      freedUpMinimums).debts
    = debts.map (fun d =>
        if activeB d then (monthDebtCalc (allocateExtraPayments debts
          (getStrategySorter strategy debts) extraPayment freedUpMinimums) d).2.1
        else { d with isPaidOff := true, balance := 0 }) := processDebts_updated _ _
  have hpay : (simulateMonth debts extraPayment strategy month totalInterestSoFar
      freedUpMinimums).payments
    = (debts.filter activeB).map (fun d => (monthDebtCalc (allocateExtraPayments debts
        (getStrategySorter strategy debts) extraPayment freedUpMinimums) d).1) :=
    processDebts_payments _ _
  have hlen : i < ((simulateMonth debts extraPayment strategy month totalInterestSoFar
      freedUpMinimums).debts).length := by
    rw [hmap, List.length_map]; exact h
  have hget : (simulateMonth debts extraPayment strategy month totalInterestSoFar
      freedUpMinimums).debts.getD i ddefault
    = (fun d =>
        if activeB d then (monthDebtCalc (allocateExtraPayments debts
          (getStrategySorter strategy debts) extraPayment freedUpMinimums) d).2.1
        else { d with isPaidOff := true, balance := 0 }) (debts.get ⟨i, h⟩) := by
    rw [List.getD_eq_getElem _ _ hlen]
    simp only [hmap, List.getElem_map]
    rfl
  have hgetIn : debts.getD i ddefault = debts.get ⟨i, h⟩ := by
    rw [List.getD_eq_getElem _ _ h]
    rfl
  refine ⟨?_, ?_, ?_, ?_⟩
  · rw [hget]
    by_cases hd : activeB (debts.get ⟨i, h⟩) = true
    · simp only [hd, if_true]
      exact monthDebtCalc_balance_nonneg _ _
    · simp only [hd]
      simp
  · rw [hget]
    by_cases hd : activeB (debts.get ⟨i, h⟩) = true
    · simp only [hd, if_true]
      exact monthDebtCalc_paidOff_balance _ _
    · simp only [hd]
      simp
  · intro hin
    rw [hgetIn] at hin
    have hd : activeB debts[i] = false := by
      unfold activeB
      rw [show debts[i].isPaidOff = true from hin]
      rfl
    simp only [hget]
    simp [hd]
  · intro p hp
    rw [hpay] at hp
    obtain ⟨d, hdmem, rfl⟩ := List.mem_map.mp hp
    obtain ⟨hmem, hact⟩ := List.mem_filter.mp hdmem
    exact ⟨d, hmem, hact, monthDebtCalc_debtId _ _⟩

/-- Concrete instantiation of `simulateMonth_state_invariants`: one active and
one already-paid-off debt. -/
theorem simulateMonth_state_invariants_witness :
    (0 ≤ ((simulateMonth [c3debtA, { c3debtB with isPaidOff := true }] 10 .avalanche 1 0 0).debts.getD 1 ddefault).balance
    ∧ (((simulateMonth [c3debtA, { c3debtB with isPaidOff := true }] 10 .avalanche 1 0 0).debts.getD 1 ddefault).isPaidOff = true →
        ((simulateMonth [c3debtA, { c3debtB with isPaidOff := true }] 10 .avalanche 1 0 0).debts.getD 1 ddefault).balance = 0)
    ∧ (([c3debtA, { c3debtB with isPaidOff := true }].getD 1 ddefault).isPaidOff = true →
        ((simulateMonth [c3debtA, { c3debtB with isPaidOff := true }] 10 .avalanche 1 0 0).debts.getD 1 ddefault).isPaidOff = true
        ∧ ((simulateMonth [c3debtA, { c3debtB with isPaidOff := true }] 10 .avalanche 1 0 0).debts.getD 1 ddefault).balance = 0)
    ∧ (∀ p, p ∈ (simulateMonth [c3debtA, { c3debtB with isPaidOff := true }] 10 .avalanche 1 0 0).payments →
        ∃ d, d ∈ [c3debtA, { c3debtB with isPaidOff := true }] ∧ activeB d = true ∧ p.debtId = d.id)) :=
  simulateMonth_state_invariants [c3debtA, { c3debtB with isPaidOff := true }]
    10 .avalanche 1 0 0 1 (by decide)

-- ==========================================================================
-- Claim C3 (corrected) — amended statement: the allocation is a waterfall
-- ==========================================================================

theorem mapGetD_set_same {α : Type} (m : List (String × α)) (k : String) (v d : α) :
    mapGetD (mapSet m k v) k d = v := by
  simp [mapSet, mapGetD]

theorem mapGetD_set_ne {α : Type} (m : List (String × α)) (k k' : String) (v d : α)
    (h : k ≠ k') : mapGetD (mapSet m k v) k' d = mapGetD m k' d := by
  simp [mapSet, mapGetD, h]

theorem extraWaterfall_zero (l : List DebtState) (k : String) :
    extraWaterfall l 0 k = 0 := by
  induction l with
  | nil => rfl
  | cons d rest ih =>
    simp only [extraWaterfall]
    split_ifs with h1 h2
    · exact ih
    · have hbal : 0 < d.balance := by
        push_neg at h1
        exact h1.2
      rw [min_eq_left (le_of_lt hbal)]
    · have hbal : 0 < d.balance := by
        push_neg at h1
        exact h1.2
      rw [min_eq_left (le_of_lt hbal), sub_zero]
      exact ih

theorem allocLoop_getD_not_mem (l : List DebtState) (rem : ℚ)
    (acc : List (String × ℚ)) (k : String) (hk : ∀ d ∈ l, d.id ≠ k) :
    mapGetD (allocLoop l rem acc) k 0 = mapGetD acc k 0 := by
  induction l generalizing rem acc with
  | nil => rfl
  | cons d rest ih =>
    simp only [allocLoop]
    split_ifs with h1 h2 h3
    · rfl
    · exact ih _ _ (fun x hx => hk x (List.mem_cons_of_mem _ hx))
    · exact mapGetD_set_ne _ _ _ _ _ (hk d (List.mem_cons_self _ _))
    · rw [ih _ _ (fun x hx => hk x (List.mem_cons_of_mem _ hx))]
      exact mapGetD_set_ne _ _ _ _ _ (hk d (List.mem_cons_self _ _))

theorem foldl_mapSet_zero_getD (debts : List DebtState)
    (acc : List (String × ℚ)) (k : String) (hacc : mapGetD acc k 0 = 0) :
    mapGetD (debts.foldl (fun m d => mapSet m d.id 0) acc) k 0 = 0 := by
  induction debts generalizing acc with
  | nil => exact hacc
  | cons d rest ih =>
    simp only [List.foldl_cons]
    apply ih
    by_cases h : d.id = k
    · rw [h, mapGetD_set_same]
    · rw [mapGetD_set_ne _ _ _ _ _ h]
      exact hacc

theorem allocLoop_eq_waterfall (l : List DebtState) (rem : ℚ)
    (acc : List (String × ℚ)) (k : String) (h0 : 0 ≤ rem)
    (hnd : (l.map DebtState.id).Nodup) (hacc : mapGetD acc k 0 = 0) :
    mapGetD (allocLoop l rem acc) k 0 = extraWaterfall l rem k := by
  induction l generalizing rem acc with
  | nil => simpa [allocLoop, extraWaterfall] using hacc
  | cons d rest ih =>
    have hdn : d.id ∉ rest.map DebtState.id := by
      have := List.nodup_cons.mp hnd
      exact this.1
    have hndr : (rest.map DebtState.id).Nodup := (List.nodup_cons.mp hnd).2
    by_cases hneg : rem ≤ 0
    · have hrem : rem = 0 := le_antisymm hneg h0
      subst hrem
      rw [show allocLoop (d :: rest) 0 acc = acc from by
        simp only [allocLoop]; rw [if_pos le_rfl]]
      rw [extraWaterfall_zero]
      exact hacc
    · by_cases hact : d.isPaidOff = true ∨ d.balance ≤ 0
      · rw [show allocLoop (d :: rest) rem acc = allocLoop rest rem acc from by
          simp only [allocLoop]; rw [if_neg hneg, if_pos hact]]
        rw [show extraWaterfall (d :: rest) rem k = extraWaterfall rest rem k from by
          simp only [extraWaterfall]; rw [if_pos hact]]
        exact ih _ _ h0 hndr hacc
      · rw [show extraWaterfall (d :: rest) rem k
            = if d.id = k then min rem d.balance
              else extraWaterfall rest (rem - min rem d.balance) k from by
          simp only [extraWaterfall]; rw [if_neg hact]]
        by_cases hlt : min rem d.balance < d.balance
        · have hamtrem : min rem d.balance = rem := by
            rcases le_total rem d.balance with hc | hc
            · exact min_eq_left hc
            · exact absurd (min_eq_right hc ▸ hlt) (lt_irrefl _)
          rw [show allocLoop (d :: rest) rem acc
              = mapSet acc d.id (min rem d.balance) from by
            simp only [allocLoop]; rw [if_neg hneg, if_neg hact, if_pos hlt]]
          by_cases hk : d.id = k
          · rw [if_pos hk, ← hk, mapGetD_set_same]
          · rw [if_neg hk, mapGetD_set_ne _ _ _ _ _ hk, hacc, hamtrem, sub_self,
              extraWaterfall_zero]
        · rw [show allocLoop (d :: rest) rem acc
              = allocLoop rest (rem - min rem d.balance)
                  (mapSet acc d.id (min rem d.balance)) from by
            simp only [allocLoop]; rw [if_neg hneg, if_neg hact, if_neg hlt]]
          by_cases hk : d.id = k
          · have hknotin : ∀ x ∈ rest, x.id ≠ k := by
              intro x hx hxk
              apply hdn
              rw [hk, ← hxk]
              exact List.mem_map_of_mem DebtState.id hx
            rw [allocLoop_getD_not_mem _ _ _ _ hknotin, if_pos hk, ← hk,
              mapGetD_set_same]
          · rw [if_neg hk]
            apply ih
            · have := min_le_left rem d.balance
              linarith
            · exact hndr
            · rw [mapGetD_set_ne _ _ _ _ _ hk]
              exact hacc

/-- Claim C3 amended: the extra-payment allocation is not single-target — it
is a priority-ordered waterfall.  Scanning the priority order with
`remaining = extra + freed minimums`, each active debt receives
`min(remaining, balance)` and the remainder carries to the next debt, so a
lower-priority debt receives surplus exactly when every higher-priority
active debt's full balance is covered; allocation stops at the first debt not
fully covered.  (A debt paid off mid-month only by the payment cap in
`simulateMonth` still triggers no redistribution, since the allocation is
computed once from the start-of-month balances.)  Requires distinct ids in
the priority order and a non-negative budget. -/
theorem allocateExtraPayments_waterfall (debts sortedDebts : List DebtState)
    (extraPayment freedUpMinimums : ℚ) (k : String)
    (h0 : 0 ≤ extraPayment + freedUpMinimums)
    (hnd : (sortedDebts.map DebtState.id).Nodup) :
    mapGetD (allocateExtraPayments debts sortedDebts extraPayment freedUpMinimums) k 0
      = extraWaterfall sortedDebts (extraPayment + freedUpMinimums) k := by
  unfold allocateExtraPayments
  exact allocLoop_eq_waterfall _ _ _ _ h0 hnd (foldl_mapSet_zero_getD debts [] k rfl)

/-- Concrete instantiation of `allocateExtraPayments_waterfall` on the
counterexample's inputs. -/
theorem allocateExtraPayments_waterfall_witness :
    mapGetD (allocateExtraPayments [c3debtA, c3debtB] [c3debtA, c3debtB] 150 0) "B" 0
      = extraWaterfall [c3debtA, c3debtB] (150 + 0) "B" :=
  allocateExtraPayments_waterfall [c3debtA, c3debtB] [c3debtA, c3debtB] 150 0 "B"
    (by decide) (by decide)

-- ==========================================================================
-- Claim C4 (corrected) — amended statement: the strategies coincide on
-- degenerate debt sets; the inequality is not universal
-- ==========================================================================

theorem sorter_singleton (l : List DebtState) (h : l.length ≤ 1) :
    sortByAvalanche l = sortBySnowball l := by
  match l with
  | [] => rfl
  | [d] =>
    unfold sortByAvalanche sortBySnowball
    cases hd : activeB d <;>
      simp [List.filter_cons, hd, stableSortBy, insertLe]
  | a :: b :: rest => simp at h

theorem processDebts_length (alloc : List (String × ℚ)) (l : List DebtState) :
    (processDebts alloc l).updatedDebts.length = l.length := by
  rw [processDebts_updated]
  exact List.length_map _ _

theorem simulateMonth_debts_length (debts : List DebtState) (extra : ℚ)
    (strategy : DebtStrategy) (month : ℕ) (tis freed : ℚ) :
    (simulateMonth debts extra strategy month tis freed).debts.length = debts.length :=
  processDebts_length _ _

theorem simulateMonth_av_sn (states : List DebtState) (extra : ℚ) (month : ℕ)
    (tis freed : ℚ) (h : states.length ≤ 1) :
    simulateMonth states extra .avalanche month tis freed
      = simulateMonth states extra .snowball month tis freed := by
  simp only [simulateMonth, getStrategySorter]
  rw [sorter_singleton states h]

theorem simStep_av_sn (e : ℚ) (ob : List (String × (ℚ × String))) (acc : SimAcc)
    (h : acc.states.length ≤ 1) :
    simStep .avalanche e ob acc = simStep .snowball e ob acc := by
  simp only [simStep]
  rw [simulateMonth_av_sn _ _ _ _ _ h]

theorem simStep_states_length (s : DebtStrategy) (e : ℚ)
    (ob : List (String × (ℚ × String))) (acc : SimAcc) :
    (simStep s e ob acc).states.length = acc.states.length :=
  simulateMonth_debts_length acc.states e s (acc.month + 1)
    acc.totalInterestPaid acc.freedUpMinimums

theorem simLoop_av_sn (e : ℚ) (ob : List (String × (ℚ × String))) :
    ∀ (n : ℕ) (acc : SimAcc), acc.states.length ≤ 1 →
      simLoop .avalanche e ob n acc = simLoop .snowball e ob n acc := by
  intro n
  induction n with
  | zero => intro acc _; rfl
  | succ n ih =>
    intro acc h
    simp only [simLoop]
    by_cases hrem : hasRemainingDebt acc.states = true
    · rw [if_pos hrem, if_pos hrem, simStep_av_sn e ob acc h]
      apply ih
      rw [simStep_states_length]
      exact h
    · rw [if_neg hrem, if_neg hrem]

/-- Claim C4 amended: the avalanche-≤-snowball interest property is not
universal (see the counterexample) — payment capping, the $0.01 payoff
write-off and the one-month delay of freed minimums can make avalanche pay
more.  What does hold on the comparator's inputs for every extra payment and
month cap is that the two strategies coincide whenever at most one debt is
simulated, the degenerate case where prioritization is irrelevant. -/
theorem avalanche_snowball_single_debt (debts : List DebtAccount) (extra : ℚ)
    (maxMonths : ℕ) (h : debts.length ≤ 1) :
    (simulateStrategy debts .avalanche extra maxMonths).totalInterestPaid
      = (simulateStrategy debts .snowball extra maxMonths).totalInterestPaid := by
  have hrun : simRun debts .avalanche extra maxMonths
      = simRun debts .snowball extra maxMonths := by
    unfold simRun
    apply simLoop_av_sn
    simpa using h
  show jsRound2 (simRun debts .avalanche extra maxMonths).totalInterestPaid
    = jsRound2 (simRun debts .snowball extra maxMonths).totalInterestPaid
  rw [hrun]

/-- Concrete instantiation of `avalanche_snowball_single_debt`. -/
theorem avalanche_snowball_single_debt_witness :
    (simulateStrategy [c4debt0] .avalanche 50 12).totalInterestPaid
      = (simulateStrategy [c4debt0] .snowball 50 12).totalInterestPaid :=
  avalanche_snowball_single_debt [c4debt0] 50 12 (by decide)

-- ==========================================================================
-- Claim C10 (confirmed) — driver bounds
-- ==========================================================================

theorem simStep_month (s : DebtStrategy) (e : ℚ)
    (ob : List (String × (ℚ × String))) (acc : SimAcc) :
    (simStep s e ob acc).month = acc.month + 1 := rfl

theorem simStep_schedule (s : DebtStrategy) (e : ℚ)
    (ob : List (String × (ℚ × String))) (acc : SimAcc) :
    (simStep s e ob acc).schedule
      = acc.schedule ++ [simulateMonth acc.states e s (acc.month + 1)
          acc.totalInterestPaid acc.freedUpMinimums] := rfl

theorem simLoop_month_le (s : DebtStrategy) (e : ℚ)
    (ob : List (String × (ℚ × String))) :
    ∀ (n : ℕ) (acc : SimAcc), (simLoop s e ob n acc).month ≤ acc.month + n := by
  intro n
  induction n with
  | zero => intro acc; simp [simLoop]
  | succ n ih =>
    intro acc
    simp only [simLoop]
    by_cases hrem : hasRemainingDebt acc.states = true
    · rw [if_pos hrem]
      have h1 := ih (simStep s e ob acc)
      rw [simStep_month] at h1
      omega
    · rw [if_neg hrem]
      omega

/-- Schedule bookkeeping invariant of the driver loop: the schedule has one
entry per elapsed month and entry `i` carries month number `i + 1`. -/
def schedOK (acc : SimAcc) : Prop :=
  acc.schedule.length = acc.month
  ∧ ∀ i, i < acc.schedule.length → (acc.schedule.getD i mdefault).month = i + 1

theorem simStep_schedOK (s : DebtStrategy) (e : ℚ)
    (ob : List (String × (ℚ × String))) (acc : SimAcc) (h : schedOK acc) :
    schedOK (simStep s e ob acc) := by
  obtain ⟨hlen, hidx⟩ := h
  constructor
  · rw [simStep_schedule, List.length_append, simStep_month, hlen]
    rfl
  · intro i hi
    rw [simStep_schedule] at hi ⊢
    rw [List.length_append] at hi
    by_cases hcase : i < acc.schedule.length
    · rw [List.getD_append _ _ _ _ hcase]
      exact hidx i hcase
    · have hieq : i = acc.schedule.length := by
        simp only [List.length_singleton] at hi
        omega
      subst hieq
      rw [List.getD_append_right _ _ _ _ (le_refl _), Nat.sub_self]
      show (simulateMonth acc.states e s (acc.month + 1)
        acc.totalInterestPaid acc.freedUpMinimums).month = acc.schedule.length + 1
      rw [hlen]
      rfl

theorem simLoop_schedOK (s : DebtStrategy) (e : ℚ)
    (ob : List (String × (ℚ × String))) :
    ∀ (n : ℕ) (acc : SimAcc), schedOK acc → schedOK (simLoop s e ob n acc) := by
  intro n
  induction n with
  | zero => intro acc h; exact h
  | succ n ih =>
    intro acc h
    simp only [simLoop]
    by_cases hrem : hasRemainingDebt acc.states = true
    · rw [if_pos hrem]
      exact ih _ (simStep_schedOK s e ob acc h)
    · rw [if_neg hrem]
      exact h

/-- Claim C10: the driver numbers months from 1, stops as soon as no active
debt remains or the cap is reached, reports `totalMonths` equal to the
schedule length and never above the cap (default `MAX_SIMULATION_MONTHS =
360`), and records every debt still active at the cap in the payoff order
with the sentinel months-to-payoff `cap + 999`. -/
theorem simulateStrategy_driver_properties (debts : List DebtAccount)
    (strategy : DebtStrategy) (extra : ℚ) (maxMonths : ℕ) :
    ((simulateStrategy debts strategy extra maxMonths).totalMonths
        = (simulateStrategy debts strategy extra maxMonths).schedule.length)
    ∧ (simulateStrategy debts strategy extra maxMonths).totalMonths ≤ maxMonths
    ∧ (∀ i, i < (simulateStrategy debts strategy extra maxMonths).schedule.length →
        ((simulateStrategy debts strategy extra maxMonths).schedule.getD i
          mdefault).month = i + 1)
    ∧ (∀ d, d ∈ (simRun debts strategy extra maxMonths).states →
        d.isPaidOff = false → 0 < d.balance →
        ∃ p, p ∈ (simulateStrategy debts strategy extra maxMonths).payoffOrder
          ∧ p.debtId = d.id ∧ p.monthsToPayoff = maxMonths + 999)
    ∧ MAX_SIMULATION_MONTHS = 360 := by
  have hok : schedOK (simRun debts strategy extra maxMonths) := by
    unfold simRun
    apply simLoop_schedOK
    refine ⟨rfl, ?_⟩
    intro i hi
    simp at hi
  have hmon : (simRun debts strategy extra maxMonths).month ≤ maxMonths := by
    unfold simRun
    have h1 := simLoop_month_le strategy extra
      (originalBalancesOf (debts.mapIdx (fun i d => initializeDebtState d i))) maxMonths
      { states := debts.mapIdx (fun i d => initializeDebtState d i)
        schedule := []
        payoffOrder := []
        interestMap := initialInterestMap (debts.mapIdx (fun i d => initializeDebtState d i))
        totalInterestPaid := 0
        totalAmountPaid := 0
        freedUpMinimums := 0
        month := 0 }
    simpa using h1
  refine ⟨hok.1.symm, hmon, ?_, ?_, rfl⟩
  · intro i hi
    exact hok.2 i hi
  · intro d hd hpo hbal
    have hpay : (simulateStrategy debts strategy extra maxMonths).payoffOrder
        = (simRun debts strategy extra maxMonths).payoffOrder ++
          ((simRun debts strategy extra maxMonths).states.filter
            (fun d => !d.isPaidOff && decide (0 < d.balance))).map
            (fun d =>
              { debtId := d.id
                debtName := d.name
                monthsToPayoff := maxMonths + 999
                interestPaid := mapGetD (simRun debts strategy extra maxMonths).interestMap d.id 0
                originalBalance := (mapGetD (originalBalancesOf
                  (debts.mapIdx (fun i d => initializeDebtState d i))) d.id (0, d.id)).1 }) := rfl
    refine ⟨{ debtId := d.id
              debtName := d.name
              monthsToPayoff := maxMonths + 999
              interestPaid := mapGetD (simRun debts strategy extra maxMonths).interestMap d.id 0
              originalBalance := (mapGetD (originalBalancesOf
                (debts.mapIdx (fun i d => initializeDebtState d i))) d.id (0, d.id)).1 },
      ?_, rfl, rfl⟩
    rw [hpay]
    apply List.mem_append_right
    refine List.mem_map.mpr ⟨d, ?_, rfl⟩
    refine List.mem_filter.mpr ⟨hd, ?_⟩
    simp [hpo, hbal]

/-- A zero-APR debt whose minimum payment cannot retire it within two
months. -/
def c10account : DebtAccount := ⟨some "L", some "L", .other, 1000, 0, some 10, none⟩

/-- The state of `c10account` after two simulated months: $20 of principal
paid, still active. -/
def c10finalState : DebtState :=
  { id := "L", name := "L", type := .other, balance := 980, apr := 0,
    minimumPayment := 10, creditLimit := none, isPaidOff := false }

/-- Concrete instantiation of `simulateStrategy_driver_properties`: a debt the
two-month cap cannot retire is reported with the sentinel `2 + 999`. -/
theorem simulateStrategy_driver_properties_witness :
    (((simulateStrategy [c10account] .avalanche 0 2).schedule.getD 0
        mdefault).month = 0 + 1)
    ∧ (∃ p, p ∈ (simulateStrategy [c10account] .avalanche 0 2).payoffOrder
        ∧ p.debtId = c10finalState.id ∧ p.monthsToPayoff = 2 + 999) :=
  ⟨(simulateStrategy_driver_properties [c10account] .avalanche 0 2).2.2.1 0 (by decide),
   (simulateStrategy_driver_properties [c10account] .avalanche 0 2).2.2.2.1
     c10finalState (by decide) (by decide) (by decide)⟩

-- ==========================================================================
-- Claim C9 (confirmed) — recommendation policy
-- ==========================================================================

theorem simulateStrategy_strategy (debts : List DebtAccount) (s : DebtStrategy)
    (e : ℚ) (mm : ℕ) : (simulateStrategy debts s e mm).strategy = s := rfl

/-- Claim C9: `compareStrategies` recommends exactly by the ordered policy —
avalanche when the snowball-minus-avalanche interest differential exceeds
$500 or snowball's first payoff is not within 3 months; otherwise snowball
when the first payoff is within 3 months and the differential is below $200;
otherwise hybrid. -/
theorem compareStrategies_recommendation_policy (debts : List DebtAccount)
    (extra : ℚ) (maxMonths : ℕ) :
    (compareStrategies debts extra maxMonths).recommendedStrategy
      = recommendationPolicyRef (simulateStrategy debts .snowball extra maxMonths)
          (simulateStrategy debts .avalanche extra maxMonths) := by
  simp only [compareStrategies, recommendationPolicyRef, List.find?,
    simulateStrategy_strategy]
  rfl

-- ==========================================================================
-- Claim C5 (confirmed) — decision and confidence against the spec formulas
-- ==========================================================================

theorem foldl_add_map (l : List RuleResult) (f : RuleResult → ℚ) (c : ℚ) :
    l.foldl (fun s r => s + f r) c = c + (l.map f).sum := by
  induction l generalizing c with
  | nil => simp
  | cons r rest ih =>
    simp only [List.foldl_cons, List.map_cons, List.sum_cons, ih]
    ring

theorem applicable_weight_nonneg (m : AffordabilityMetrics) (i : PurchaseImpact) :
    0 ≤ (((affordRulesList m i).filter (fun r => decide (0 < r.weight))).map
      RuleResult.weight).sum := by
  apply List.sum_nonneg
  intro x hx
  obtain ⟨r, hr, rfl⟩ := List.mem_map.mp hx
  have h1 := (List.mem_filter.mp hr).2
  have h2 := of_decide_eq_true h1
  linarith

theorem weightedScore_eq_spec (m : AffordabilityMetrics) (i : PurchaseImpact)
    (a : ℚ) :
    (evaluateAffordabilityRules m i a).weightedScore = specWeightedScore m i := by
  simp only [evaluateAffordabilityRules, specWeightedScore]
  rw [foldl_add_map, foldl_add_map]
  simp only [zero_add]
  by_cases h : (0:ℚ) < (((affordRulesList m i).filter
      (fun r => decide (0 < r.weight))).map RuleResult.weight).sum
  · rw [if_pos h]
  · rw [if_neg h]
    have h0 : (((affordRulesList m i).filter
        (fun r => decide (0 < r.weight))).map RuleResult.weight).sum = 0 :=
      le_antisymm (not_lt.mp h) (applicable_weight_nonneg m i)
    rw [h0, div_zero]

theorem finalDecision_eq_spec (m : AffordabilityMetrics) (i : PurchaseImpact)
    (a : ℚ) :
    determineFinalDecision i m (evaluateAffordabilityRules m i a).suggestedDecision
      = specDecision m i := by
  have hsug : (evaluateAffordabilityRules m i a).suggestedDecision
      = (if 85/100 ≤ (evaluateAffordabilityRules m i a).weightedScore then
          DecisionOutcome.YES
        else if 60/100 ≤ (evaluateAffordabilityRules m i a).weightedScore then
          DecisionOutcome.CONDITIONAL
        else if 40/100 ≤ (evaluateAffordabilityRules m i a).weightedScore then
          DecisionOutcome.DEFER
        else DecisionOutcome.NO) := rfl
  simp only [determineFinalDecision, specDecision]
  rw [hsug, weightedScore_eq_spec]

theorem confidence_eq_spec (m : AffordabilityMetrics) (i : PurchaseImpact) (a : ℚ) :
    determineConfidence i (evaluateAffordabilityRules m i a).weightedScore
      (determineFinalDecision i m (evaluateAffordabilityRules m i a).suggestedDecision)
      = specConfidence m i := by
  simp only [determineConfidence, specConfidence]
  rw [weightedScore_eq_spec, finalDecision_eq_spec]

/-- Claim C5: for every metrics/impact pair the decision steps of
`calculateAffordability` — the threshold mapping of the weighted rule score
followed by the overrides in order — and its confidence computation agree
with the formulas as the specification words them (`specDecision`,
`specConfidence`), and `calculateAffordability` itself returns exactly those
values on every profile/purchase. -/
theorem calculateAffordability_decision_confidence_spec
    (m : AffordabilityMetrics) (i : PurchaseImpact) (a : ℚ)
    (profile : UserFinancialProfile) (purchase : PurchaseRequest) :
    (determineFinalDecision i m (evaluateAffordabilityRules m i a).suggestedDecision
        = specDecision m i)
    ∧ (determineConfidence i (evaluateAffordabilityRules m i a).weightedScore
        (determineFinalDecision i m (evaluateAffordabilityRules m i a).suggestedDecision)
        = specConfidence m i)
    ∧ ((calculateAffordability profile purchase).decision
        = specDecision (calculateMetrics profile)
            (calculatePurchaseImpact (calculateMetrics profile) purchase profile))
    ∧ ((calculateAffordability profile purchase).confidence
        = specConfidence (calculateMetrics profile)
            (calculatePurchaseImpact (calculateMetrics profile) purchase profile)) :=
  ⟨finalDecision_eq_spec m i a,
   confidence_eq_spec m i a,
   finalDecision_eq_spec (calculateMetrics profile)
     (calculatePurchaseImpact (calculateMetrics profile) purchase profile)
     purchase.amount,
   confidence_eq_spec (calculateMetrics profile)
     (calculatePurchaseImpact (calculateMetrics profile) purchase profile)
     purchase.amount⟩

-- ==========================================================================
-- Rounding facts used by the amended C6
-- ==========================================================================

theorem rfloor_eq_floor (q : ℚ) : (Rat.floor q : ℤ) = ⌊q⌋ := by
  rw [Rat.floor_def' q, Rat.floor_def]

theorem round2_cents (n : ℤ) : round2 ((n : ℚ) / 100) = (n : ℚ) / 100 := by
  unfold round2
  by_cases h : (0:ℚ) ≤ (n:ℚ)/100
  · rw [if_pos h]
    have h2 : ((n:ℚ)/100) * 100 + 1/2 = (n:ℚ) + 1/2 := by ring
    rw [h2, rfloor_eq_floor, Int.floor_int_add]
    push_cast
    norm_num
  · rw [if_neg h]
    have h2 : (-((n:ℚ)/100)) * 100 + 1/2 = ((-n : ℤ) : ℚ) + 1/2 := by
      push_cast
      ring
    rw [h2, rfloor_eq_floor, Int.floor_int_add]
    push_cast
    norm_num
    ring

theorem round2_isCents (x : ℚ) : ∃ n : ℤ, round2 x = (n : ℚ) / 100 := by
  unfold round2
  by_cases h : 0 ≤ x
  · rw [if_pos h]
    exact ⟨Rat.floor (x * 100 + 1/2), rfl⟩
  · rw [if_neg h]
    refine ⟨-(Rat.floor ((-x) * 100 + 1/2)), ?_⟩
    push_cast
    ring

-- ==========================================================================
-- Claim C6 (corrected) — amended statement: cash-like payment methods
-- ==========================================================================

/-- Claim C6 amended: the stated property holds for the payment methods that
deduct the full amount from cash — cash, debit and savings.  For monetary
amounts in whole cents, a purchase amount exceeding the liquid assets then
yields a negative projected cash balance, and the override forces decision
NO.  (For credit_card, buy_now_pay_later, financing and mixed purchases the
projected balance is reduced by less than the full amount — or not at all —
so the stated conjunction can fail; see the counterexample.) -/
theorem affordability_cash_over_liquid_no (profile : UserFinancialProfile)
    (purchase : PurchaseRequest)
    (hm : purchase.payment_method = PaymentMethod.cash
        ∨ purchase.payment_method = PaymentMethod.debit
        ∨ purchase.payment_method = PaymentMethod.savings)
    (hc : ∃ n : ℤ, purchase.amount = (n : ℚ) / 100)
    (hgt : (calculateMetrics profile).liquidAssets < purchase.amount) :
    (calculateAffordability profile purchase).decision = DecisionOutcome.NO
    ∧ (calculateAffordability profile purchase).impact.projectedCashBalance < 0 := by
  obtain ⟨n, hn⟩ := hc
  obtain ⟨zL, hzL⟩ : ∃ z : ℤ, (calculateMetrics profile).liquidAssets = (z:ℚ)/100 :=
    round2_isCents _
  have hproj : (calculatePurchaseImpact (calculateMetrics profile) purchase
        profile).projectedCashBalance
      = round2 ((calculateMetrics profile).liquidAssets - purchase.amount) := by
    rcases hm with h | h | h <;> simp [calculatePurchaseImpact, h]
  have hsub : (calculateMetrics profile).liquidAssets - purchase.amount
      = ((zL - n : ℤ) : ℚ)/100 := by
    rw [hzL, hn]
    push_cast
    ring
  have hprojval : (calculatePurchaseImpact (calculateMetrics profile) purchase
        profile).projectedCashBalance
      = (calculateMetrics profile).liquidAssets - purchase.amount := by
    rw [hproj, hsub, round2_cents]
  have hlt : (calculatePurchaseImpact (calculateMetrics profile) purchase
      profile).projectedCashBalance < 0 := by
    rw [hprojval]
    linarith
  refine ⟨?_, hlt⟩
  show determineFinalDecision
    (calculatePurchaseImpact (calculateMetrics profile) purchase profile)
    (calculateMetrics profile) _ = _
  simp only [determineFinalDecision]
  rw [if_pos hlt]
  split_ifs with h1 h2 h3
  · exact absurd h2.1 (by decide)
  · rfl
  · exact absurd h3.1 (by decide)
  · rfl

/-- Profile and purchase witnessing the amended C6: $100 of liquid assets,
a $200 cash purchase. -/
def c6cashProfile : UserFinancialProfile := ⟨1000, 100, 100, none, none, []⟩

def c6cashPurchase : PurchaseRequest := ⟨200, .cash, none⟩

/-- Concrete instantiation of `affordability_cash_over_liquid_no`. -/
theorem affordability_cash_over_liquid_no_witness :
    (calculateAffordability c6cashProfile c6cashPurchase).decision = DecisionOutcome.NO
    ∧ (calculateAffordability c6cashProfile c6cashPurchase).impact.projectedCashBalance < 0 :=
  affordability_cash_over_liquid_no c6cashProfile c6cashPurchase (Or.inl rfl)
    ⟨20000, by decide⟩ (by decide)

-- ==========================================================================
-- Claim C7 (corrected) — amended statement: guarded fallbacks, no raising
-- ==========================================================================

/-- Claim C7 amended: every division among the core's guarded denominators is
protected — the raising `money.divide` call sites (credit-limit totals) are
reached only with a nonzero divisor, so they never raise — and the fallback
at a zero denominator is the constant 0 for debt-to-income, savings rate,
emergency-fund months, credit utilization and buffer-months-remaining, but
the constant 1 for buffer-consumption-percent (zero liquid assets) and for
purchase-to-income (zero income). -/
theorem zero_denominator_guards :
    (∀ debts, calculateCreditUtilizationChecked debts
        = some (calculateCreditUtilization debts))
    ∧ (∀ (amount : ℚ) debts, creditCardUtilChangeChecked amount debts
        = some (creditCardUtilChange amount debts))
    ∧ (∀ profile, profile.monthly_income = 0 →
        (calculateMetrics profile).debtToIncome = 0
        ∧ (calculateMetrics profile).savingsRate = 0)
    ∧ (∀ profile, (calculateMetrics profile).monthlyExpenses
          + (calculateMetrics profile).monthlyDebtPayments = 0 →
        (calculateMetrics profile).emergencyFundMonths = 0)
    ∧ (∀ debts, ((utilizationCards debts).map (fun d => d.credit_limit.getD 0)).sum = 0 →
        calculateCreditUtilization debts = 0)
    ∧ (∀ m purchase profile, m.monthlyExpenses + m.monthlyDebtPayments = 0 →
        (calculatePurchaseImpact m purchase profile).monthsOfBufferRemaining = 0)
    ∧ (∀ m purchase profile, m.liquidAssets = 0 →
        (calculatePurchaseImpact m purchase profile).bufferConsumptionPercent = 1)
    ∧ (∀ m purchase profile, m.monthlyIncome = 0 →
        (calculatePurchaseImpact m purchase profile).purchaseToIncome = 1) := by
  refine ⟨?_, ?_, ?_, ?_, ?_, ?_, ?_, ?_⟩
  · intro debts
    simp only [calculateCreditUtilizationChecked, calculateCreditUtilization]
    by_cases h1 : utilizationCards debts = []
    · rw [if_pos h1, if_pos h1]
    · rw [if_neg h1, if_neg h1]
      by_cases h2 : ((utilizationCards debts).map (fun d => d.credit_limit.getD 0)).sum = 0
      · rw [if_pos h2, if_pos h2]
      · rw [if_neg h2, if_neg h2]
        simp [moneyDivide, h2]
  · intro amount debts
    simp only [creditCardUtilChangeChecked, creditCardUtilChange]
    by_cases h2 : ((impactCards debts).map (fun d => d.credit_limit.getD 0)).sum = 0
    · rw [if_pos h2, if_pos h2]
    · rw [if_neg h2, if_neg h2]
      simp [moneyDivide, h2]
  · intro profile h
    constructor
    · show (if 0 < profile.monthly_income * 12 then _ else 0) = 0
      rw [h]
      norm_num
    · show (if 0 < profile.monthly_income then max 0 _ else 0) = 0
      rw [h]
      norm_num
  · intro profile h
    show (if 0 < (calculateMetrics profile).monthlyExpenses
        + (calculateMetrics profile).monthlyDebtPayments then _ else 0) = 0
    rw [h]
    norm_num
  · intro debts h
    simp only [calculateCreditUtilization]
    by_cases h1 : utilizationCards debts = []
    · rw [if_pos h1]
    · rw [if_neg h1, if_pos h]
  · intro m purchase profile h
    show (if 0 < m.monthlyExpenses + m.monthlyDebtPayments then _ else 0) = 0
    rw [h]
    norm_num
  · intro m purchase profile h
    show (if 0 < m.liquidAssets then _ else 1) = 1
    rw [h]
    norm_num
  · intro m purchase profile h
    show (if 0 < m.monthlyIncome then _ else 1) = 1
    rw [h]
    norm_num

/-- Concrete instantiations of `zero_denominator_guards` on the all-zero
profile. -/
theorem zero_denominator_guards_witness :
    calculateCreditUtilizationChecked c7profile.debts
        = some (calculateCreditUtilization c7profile.debts)
    ∧ creditCardUtilChangeChecked 10 c7profile.debts
        = some (creditCardUtilChange 10 c7profile.debts)
    ∧ ((calculateMetrics c7profile).debtToIncome = 0
        ∧ (calculateMetrics c7profile).savingsRate = 0)
    ∧ (calculateMetrics c7profile).emergencyFundMonths = 0
    ∧ calculateCreditUtilization c7profile.debts = 0
    ∧ (calculatePurchaseImpact (calculateMetrics c7profile) c7purchase
        c7profile).monthsOfBufferRemaining = 0
    ∧ (calculatePurchaseImpact (calculateMetrics c7profile) c7purchase
        c7profile).bufferConsumptionPercent = 1
    ∧ (calculatePurchaseImpact (calculateMetrics c7profile) c7purchase
        c7profile).purchaseToIncome = 1 :=
  ⟨zero_denominator_guards.1 c7profile.debts,
   zero_denominator_guards.2.1 10 c7profile.debts,
   zero_denominator_guards.2.2.1 c7profile (by decide),
   zero_denominator_guards.2.2.2.1 c7profile (by decide),
   zero_denominator_guards.2.2.2.2.1 c7profile.debts (by decide),
   zero_denominator_guards.2.2.2.2.2.1 (calculateMetrics c7profile) c7purchase
     c7profile (by decide),
   zero_denominator_guards.2.2.2.2.2.2.1 (calculateMetrics c7profile) c7purchase
     c7profile (by decide),
   zero_denominator_guards.2.2.2.2.2.2.2 (calculateMetrics c7profile) c7purchase
     c7profile (by decide)⟩

end ObsidianDecisionEngine
